import Mathlib

/-!
Verification of the AQUA-ATMOS scene-assembly scripts.

The repository is a Three.js visualization: helper files build primitive
meshes (`helpers.js`), one module-builder file per physical sub-assembly
(`sorbant.js`, `peltier.js` — the latter also containing `buildFiltration`),
a full-assembly coordinator (`assemblage.js`) and a view/state controller
(`main.js`).  This file gives a shallow embedding of those scripts:

* scalars are rationals; the handful of transcendental values the scripts
  obtain from the JS `Math` object (`Math.PI`, `Math.tan`, `Math.cos`,
  `Math.sin`, `Math.pow (·, 0.25)`) are supplied by a `MathLib` record the
  embedded builders are parameterized over, so that every definition stays
  executable and every theorem quantifies over the actual values;
* a scene node is a tree of leaves (meshes, line segments, sprites) and
  named groups, mirroring `THREE.Group`/`THREE.Mesh` trees;
* each builder function returns the tree the corresponding JS function
  constructs, in construction order;
* the controller state machine of `main.js` is embedded as a state record
  with a step per UI entry point, including JavaScript's behaviour of
  `modules[name]` property lookup on the module map (own keys, inherited
  `Object.prototype` keys, absent keys).
-/

/-- A 3-vector of rationals (models `THREE.Vector3` coordinates). -/
structure Vec3 where
  x : ℚ
  y : ℚ
  z : ℚ
deriving DecidableEq, Repr

/-- The transcendental functions the scripts take from the JavaScript `Math`
object.  The embedding is parameterized over this record: theorems hold for
every interpretation, and concrete witnesses use `qlib` below. -/
structure MathLib where
  pi : ℚ
  tan : ℚ → ℚ
  cos : ℚ → ℚ
  sin : ℚ → ℚ
  powQuarter : ℚ → ℚ
deriving Inhabited

/-- A concrete rational interpretation of `MathLib`, used by witnesses.
`pi` is the double `Math.PI`; `tan` is the constant `tan 12°ish` (its only
use site), the others are placeholder interpretations — no theorem below
depends on these values. -/
def qlib : MathLib where
  pi := 3.141592653589793
  tan := fun _ => 0.21256
  cos := fun _ => 0.5
  sin := fun _ => 0.5
  powQuarter := fun q => q

/-- Material sidedness (`THREE.FrontSide` / `THREE.DoubleSide`). -/
inductive Side where
  | front
  | double
deriving DecidableEq, Repr

/-- Data of a `THREE.MeshStandardMaterial` as used in the scripts. -/
structure StdMatData where
  color : ℕ
  roughness : ℚ := 1
  metalness : ℚ := 0
  opacity : ℚ := 1
  transparent : Bool := false
  side : Side := .front
  depthTest : Bool := true
deriving DecidableEq, Repr

/-- The material kinds the scripts construct. -/
inductive Material where
  | standard (d : StdMatData)
  | basic (color : ℕ) (hasMap : Bool) (transparent : Bool) (depthTest : Bool)
  | lineBasic (color : ℕ) (opacity : ℚ) (transparent : Bool) (depthTest : Bool)
  | spriteMat (opacity : ℚ) (transparent : Bool) (depthTest : Bool)
deriving DecidableEq, Repr

/-- Geometry kinds constructed by the scripts. -/
inductive Geom where
  | box (w h d : ℚ)
  | cylinder (rTop rBot h : ℚ) (radialSegments : ℕ)
  | tube (path : List Vec3) (tubularSegments : ℕ) (radius : ℚ)
      (radialSegments : ℕ) (closed : Bool)
  | sphere (r : ℚ) (widthSegments heightSegments : ℕ)
  | cone (r h : ℚ) (radialSegments : ℕ)
  | plane (w h : ℚ)
  | bufferIndexed (verts : List Vec3) (idx : List ℕ)
  | edgesOf (g : Geom)
deriving DecidableEq, Repr

/-- Drawable-object kinds (`THREE.Mesh`, `THREE.LineSegments`, `THREE.Line`,
`THREE.Sprite`). -/
inductive LeafKind where
  | mesh
  | lineSegs
  | line
  | sprite
deriving DecidableEq, Repr

/-- One drawable scene object: geometry, material, local transform and the
`userData.isLabel` mark. -/
structure LeafData where
  kind : LeafKind
  geom : Option Geom := none
  material : Material
  pos : Vec3 := ⟨0, 0, 0⟩
  rot : Vec3 := ⟨0, 0, 0⟩
  scaleV : Vec3 := ⟨1, 1, 1⟩
  text : String := ""
  isLabel : Bool := false
  castShadow : Bool := false
  receiveShadow : Bool := false
deriving DecidableEq, Repr

/-- A scene-graph node: a drawable leaf or a named `THREE.Group` with its
local position and ordered children. -/
inductive Node where
  | leaf (d : LeafData)
  | group (name : String) (pos : Vec3) (children : List Node)

/-- Shorthand: wrap a `LeafData` into a `Node`. -/
def L (d : LeafData) : Node := .leaf d

/-- Is this node a leaf (a drawable, not a group)? -/
def Node.isLeaf : Node → Bool
  | .leaf _ => true
  | .group _ _ _ => false

/-- The geometry of a leaf node, if any. -/
def Node.geom? : Node → Option Geom
  | .leaf d => d.geom
  | .group _ _ _ => none

/-- The material of a leaf node, if any. -/
def Node.material? : Node → Option Material
  | .leaf d => some d.material
  | .group _ _ _ => none

/-- Re-position a node (models `obj.position.set (...)` done by a caller). -/
def Node.setPos (v : Vec3) : Node → Node
  | .leaf d => .leaf { d with pos := v }
  | .group n _ cs => .group n v cs

/-- The `(name, position)` of a node when it is a group. -/
def Node.groupInfo? : Node → Option (String × Vec3)
  | .leaf _ => none
  | .group n p _ => some (n, p)

/-- The `(name, position)` pairs of the group children of a node's child
list (leaves contribute nothing). -/
def groupChildren : Node → List (String × Vec3)
  | .leaf _ => []
  | .group _ _ cs => cs.filterMap Node.groupInfo?

mutual

/-- Number of objects in a node's tree (the node itself plus all
descendants), i.e. how many `THREE.Object3D` instances a build allocates. -/
def sizeNode : Node → ℕ
  | .leaf _ => 1
  | .group _ _ cs => 1 + sizeNodes cs

/-- Sum of `sizeNode` over a list of nodes. -/
def sizeNodes : List Node → ℕ
  | [] => 0
  | n :: ns => sizeNode n + sizeNodes ns

end

mutual

/-- All materials of the leaves of a tree, in traversal order. -/
def materialsOf : Node → List Material
  | .leaf d => [d.material]
  | .group _ _ cs => materialsOfList cs

/-- The `materialsOf` over a list of nodes. -/
def materialsOfList : List Node → List Material
  | [] => []
  | n :: ns => materialsOf n ++ materialsOfList ns

end

/-! ## helpers.js — reusable primitive builders -/

namespace Helpers

/-- The material constructed by `helpers.js`'s `box`:
`transparent = opacity < 0.99`, `side = transparent ? DoubleSide : side`
where `side` is the caller-supplied option (default `FrontSide`). -/
def boxMaterial (color : ℕ) (opacity roughness metalness : ℚ) (side : Side) :
    Material :=
  let transparent := decide (opacity < 0.99)
  .standard { color, opacity, transparent, roughness, metalness,
              side := if transparent then .double else side }

/-- The mesh built by `helpers.js`'s `box`. -/
def box (w h d x y z rx ry rz : ℚ) (color : ℕ)
    (opacity roughness metalness : ℚ) (side : Side)
    (castShadow receiveShadow : Bool) : Node :=
  L { kind := .mesh, geom := some (.box w h d),
      material := boxMaterial color opacity roughness metalness side,
      pos := ⟨x, y, z⟩, rot := ⟨rx, ry, rz⟩, castShadow, receiveShadow }

/-- The material constructed by `helpers.js`'s `cyl`:
`transparent = opacity < 0.99` but `side` is never set, so it stays at the
`THREE.MeshStandardMaterial` default `FrontSide` even when transparent. -/
def cylMaterial (color : ℕ) (opacity roughness metalness : ℚ) : Material :=
  .standard { color, opacity, transparent := decide (opacity < 0.99),
              roughness, metalness, side := .front }

/-- The mesh built by `helpers.js`'s `cyl` (`rBot ?? r` handled by the
caller passing both radii). -/
def cyl (r rBot h x y z rx ry rz : ℚ) (color : ℕ)
    (opacity roughness metalness : ℚ) (segments : ℕ) (castShadow : Bool) :
    Node :=
  L { kind := .mesh, geom := some (.cylinder r rBot h segments),
      material := cylMaterial color opacity roughness metalness,
      pos := ⟨x, y, z⟩, rot := ⟨rx, ry, rz⟩, castShadow }

end Helpers

/-- The `mat(color, {roughness, metalness, opacity})` helper that the four
module files (`sorbant.js`, `peltier.js`, `filtration.js`, `assemblage.js`)
each define with identical code: `transparent = opacity < 0.99`,
`side = transparent ? DoubleSide : FrontSide`. -/
def stdMat (color : ℕ) (roughness metalness opacity : ℚ) : Material :=
  let t := decide (opacity < 0.99)
  .standard { color, roughness, metalness, opacity, transparent := t,
              side := if t then .double else .front }

/-! ## THREE.CatmullRomCurve3.getPoint (centripetal, non-closed)

Faithful embedding of three.js's `CatmullRomCurve3.getPoint` for
`closed = false` and the default `curveType = 'centripetal'`
(`Math.pow (distanceSquared, 0.25)` is modelled by the `MathLib`
parameter `powQuarter`). -/

/-- Coefficients of the per-coordinate cubic (`CubicPoly` in three.js):
`init (x0, x1, t0, t1)` sets `c0 = x0`, `c1 = t0`,
`c2 = -3 x0 + 3 x1 - 2 t0 - t1`, `c3 = 2 x0 - 2 x1 + t0 + t1`. -/
structure CubicCoef where
  c0 : ℚ
  c1 : ℚ
  c2 : ℚ
  c3 : ℚ

/-- The `CubicPoly.initNonuniformCatmullRom` of three.js. -/
def nonuniformCatmullRom (x0 x1 x2 x3 dt0 dt1 dt2 : ℚ) : CubicCoef :=
  let t1 := ((x1 - x0) / dt0 - (x2 - x0) / (dt0 + dt1) + (x2 - x1) / dt1) * dt1
  let t2 := ((x2 - x1) / dt1 - (x3 - x1) / (dt1 + dt2) + (x3 - x2) / dt2) * dt1
  { c0 := x1, c1 := t1, c2 := -3 * x1 + 3 * x2 - 2 * t1 - t2,
    c3 := 2 * x1 - 2 * x2 + t1 + t2 }

/-- The `CubicPoly.calc` of three.js. -/
def calcCubic (c : CubicCoef) (t : ℚ) : ℚ :=
  c.c0 + c.c1 * t + c.c2 * t ^ 2 + c.c3 * t ^ 3

/-- The `Vector3.distanceToSquared`. -/
def distSq (a b : Vec3) : ℚ :=
  (a.x - b.x) ^ 2 + (a.y - b.y) ^ 2 + (a.z - b.z) ^ 2

/-- The phantom end control point three.js synthesizes for an open curve:
`tmp.subVectors (p, q).add (p)`, i.e. `2 p - q`. -/
def ghostPoint (p q : Vec3) : Vec3 :=
  ⟨2 * p.x - q.x, 2 * p.y - q.y, 2 * p.z - q.z⟩

/-- The `CatmullRomCurve3.getPoint t` for a non-closed centripetal curve,
with `pq` interpreting `Math.pow (·, 0.25)`. -/
def catmullRomPoint (pq : ℚ → ℚ) (points : List Vec3) (t : ℚ) : Vec3 :=
  let l := points.length
  let phase : ℚ := ((l : ℚ) - 1) * t
  let ip0 : ℤ := ⌊phase⌋
  let w0 : ℚ := phase - ip0
  let atEnd := w0 = 0 ∧ ip0 = (l : ℤ) - 1
  let ip : ℤ := if atEnd then (l : ℤ) - 2 else ip0
  let w : ℚ := if atEnd then 1 else w0
  let zv : Vec3 := ⟨0, 0, 0⟩
  let p0 := if 0 < ip then points.getD (ip - 1).toNat zv
            else ghostPoint (points.getD 0 zv) (points.getD 1 zv)
  let p1 := points.getD ip.toNat zv
  let p2 := points.getD (ip + 1).toNat zv
  let p3 := if ip + 2 < (l : ℤ) then points.getD (ip + 2).toNat zv
            else ghostPoint (points.getD (l - 1) zv) (points.getD (l - 2) zv)
  let dt0' := pq (distSq p0 p1)
  let dt1' := pq (distSq p1 p2)
  let dt2' := pq (distSq p2 p3)
  let dt1 := if dt1' < 0.0001 then 1 else dt1'
  let dt0 := if dt0' < 0.0001 then dt1 else dt0'
  let dt2 := if dt2' < 0.0001 then dt1 else dt2'
  ⟨calcCubic (nonuniformCatmullRom p0.x p1.x p2.x p3.x dt0 dt1 dt2) w,
   calcCubic (nonuniformCatmullRom p0.y p1.y p2.y p3.y dt0 dt1 dt2) w,
   calcCubic (nonuniformCatmullRom p0.z p1.z p2.z p3.z dt0 dt1 dt2) w⟩

/-- The centerline samples `TubeGeometry` takes from the curve: point
`i / tubularSegments` for `i = 0, …, tubularSegments`. -/
def tubeCenterline (pq : ℚ → ℚ) (points : List Vec3) (tubularSegments : ℕ) :
    List Vec3 :=
  (List.range (tubularSegments + 1)).map
    (fun i => catmullRomPoint pq points ((i : ℚ) / (tubularSegments : ℚ)))

/-! ## Shared module-file helpers (`addM`, `bx`, `cy`, `edgeLine`)

`sorbant.js`, `peltier.js`, `filtration.js` and `assemblage.js` each define
these helpers with the same behaviour: `addM` creates a mesh with
`castShadow = receiveShadow = true` and adds it to the parent; `bx` adds a
box, `cy` a cylinder (`CylinderGeometry (r, r, h, 32)`, `rotation.x := rx`,
`rotation.z := rz`), `edgeLine` adds a `LineSegments` over
`EdgesGeometry (m.geometry)` copying the mesh's position and rotation. -/

/-- The `addM (parent, geo, material)` followed by `position.set`/`rotation.set`. -/
def addMesh (g : Geom) (material : Material) (pos rot : Vec3) : Node :=
  L { kind := .mesh, geom := some g, material, pos, rot,
      castShadow := true, receiveShadow := true }

/-- The module files' `bx` helper. -/
def bx (w h d : ℚ) (material : Material) (x y z rx ry rz : ℚ) : Node :=
  addMesh (.box w h d) material ⟨x, y, z⟩ ⟨rx, ry, rz⟩

/-- The module files' `cy` helper. -/
def cy (r h : ℚ) (material : Material) (x y z rx rz : ℚ) : Node :=
  addMesh (.cylinder r r h 32) material ⟨x, y, z⟩ ⟨rx, 0, rz⟩

/-- The module files' `edgeLine` helper applied to a freshly built mesh. -/
def edgeLine (n : Node) (color : ℕ) (op : ℚ) : Node :=
  match n with
  | .leaf d =>
      L { kind := .lineSegs, geom := d.geom.map .edgesOf,
          material := .lineBasic color op true true,
          pos := d.pos, rot := d.rot }
  | g => g

/-! ## modules/sorbant.js -/

namespace Sorbant

def W : ℚ := 50
def D : ℚ := 40
def HW : ℚ := W / 2
def HD : ℚ := D / 2
def T : ℚ := 2.0
def ANGLE (lib : MathLib) : ℚ := 12 * lib.pi / 180
def H_AV : ℚ := 18
def H_AR (lib : MathLib) : ℚ := H_AV + D * lib.tan (ANGLE lib)
def H_MOY (lib : MathLib) : ℚ := (H_AV + H_AR lib) / 2

def M.paroi : Material := stdMat 0x2a2f3d 0.5 0.3 0.22
def M.base : Material := stdMat 0x1e2530 0.8 0.3 1
def M.nappe : Material := stdMat 0xc0392b 0.9 0.0 1
def M.grille : Material := stdMat 0xbfc9ca 0.3 0.8 1
def M.tissu : Material := stdMat 0x1e4d2b 0.97 0.0 1
def M.vapeur : Material := stdMat 0x5dade2 0.0 0.0 0.06
def M.vitre : Material := stdMat 0x4ab3e8 0.04 0.0 0.40
def M.canal : Material := stdMat 0x1f8ec2 0.4 0.55 1
def M.tuyau : Material := stdMat 0x2e86c1 0.45 0.5 0.85
def M.volet : Material := stdMat 0x3d4454 0.75 0.25 1
def M.tringle : Material := stdMat 0x7f8c8d 0.4 0.7 1
def M.servo : Material := stdMat 0x212535 0.7 0.2 1
def M.panneau : Material := stdMat 0x1a1f2b 0.7 0.3 1
def M.oled : Material := stdMat 0x001a2e 0.2 0.1 1
def M.oledScr : Material := stdMat 0x00aacc 0.1 0.0 0.92
def M.ds18 : Material := stdMat 0x1c1c1c 0.5 0.1 1
def M.dht22 : Material := stdMat 0xecf0f1 0.8 0.0 1
def M.ldr : Material := stdMat 0xd4ac0d 0.3 0.1 0.9
def M.pin : Material := stdMat 0x7f8c8d 0.3 0.9 1
def M.btnVert : Material := stdMat 0x27ae60 0.4 0.1 1
def M.btnRouge : Material := stdMat 0xe74c3c 0.4 0.1 1

/-- Interior-face x of a trapezoidal wall:
`x1 = xPos + T * (xPos < 0 ? 1 : -1)`. -/
def trapX1 (xPos : ℚ) : ℚ := xPos + T * (if xPos < 0 then 1 else -1)

/-- The 8 vertices of `makeTrapWall`'s `BufferGeometry`, in source order:
outer face (`x = x0`) then inner face (`x = x1`), each as
front-bottom, rear-bottom, rear-top (`H_AR`), front-top (`H_AV`). -/
def trapVerts (lib : MathLib) (xPos : ℚ) : List Vec3 :=
  let x0 := xPos
  let x1 := trapX1 xPos
  [⟨x0, 0, -HD⟩, ⟨x0, 0, HD⟩, ⟨x0, H_AR lib, HD⟩, ⟨x0, H_AV, -HD⟩,
   ⟨x1, 0, -HD⟩, ⟨x1, 0, HD⟩, ⟨x1, H_AR lib, HD⟩, ⟨x1, H_AV, -HD⟩]

/-- The triangle index list of `makeTrapWall`: 6 faces x 2 triangles. -/
def trapIdx : List ℕ :=
  [0, 1, 2, 0, 2, 3,
   5, 4, 7, 5, 7, 6,
   4, 0, 3, 4, 3, 7,
   1, 5, 6, 1, 6, 2,
   4, 5, 1, 4, 1, 0,
   3, 2, 6, 3, 6, 7]

/-- The `makeTrapWall`: explicit indexed `BufferGeometry` mesh, shadows on. -/
def makeTrapWall (lib : MathLib) (xPos : ℚ) (material : Material) : Node :=
  L { kind := .mesh,
      geom := some (.bufferIndexed (trapVerts lib xPos) trapIdx),
      material, castShadow := true, receiveShadow := true }

def voletStep : ℚ := (D - 2) / 5
def gutY : ℚ := H_AV + 0.4
def gutZ : ℚ := -HD - 0.8
def panH : ℚ := 6
def panY : ℚ := gutY - 0.8 - panH / 2
def panZ : ℚ := gutZ - 0.1
def svX : ℚ := HW + T + 0.2
def svY : ℚ := H_AV - 4
def svZ : ℚ := -HD + 6

/-- The inclined glass lid (`vitreM` in the source). -/
def vitreM (lib : MathLib) : Node :=
  L { kind := .mesh, geom := some (.box W 0.35 (D + T * 2)),
      material := M.vitre, pos := ⟨0, H_MOY lib, 0⟩,
      rot := ⟨-(ANGLE lib), 0, 0⟩, castShadow := true, receiveShadow := true }

/-- The front gutter box (`gout`). -/
def gout : Node := bx W 1.2 2.8 M.canal 0 gutY gutZ 0 0 0

/-- The guided drain tube below the gutter. -/
def drainTube : Node :=
  addMesh
    (.tube [⟨-HW + 5, gutY - 1, gutZ⟩, ⟨-HW + 5, gutY - 6, gutZ - 1⟩,
            ⟨-HW + 5, gutY - 14, gutZ - 0.5⟩] 12 1.0 10 false)
    M.tuyau ⟨0, 0, 0⟩ ⟨0, 0, 0⟩

/-- The OLED screen mesh (`MeshBasicMaterial` with a canvas texture map). -/
def oledScreen : Node :=
  addMesh (.box 9 2.3 0.4) (.basic 0xffffff true false true)
    ⟨16, panY + 0.5, panZ - 0.9⟩ ⟨0, 0, 0⟩

/-- The push rod from the servo arm to the lid's front edge. -/
def tigeTube : Node :=
  addMesh
    (.tube [⟨svX - 4.5, svY + 2.5, svZ⟩, ⟨svX - 2, H_AV + 1, -HD + 2⟩,
            ⟨svX - 1.5, H_AV, -HD - 0.5⟩] 8 0.4 8 false)
    M.tringle ⟨0, 0, 0⟩ ⟨0, 0, 0⟩

/-- The DS18B20 probe tip sphere. -/
def sphereDS18 : Node :=
  addMesh (.sphere 0.7 12 8) M.ds18 ⟨-10, T + 8.5, 3⟩ ⟨0, 0, 0⟩

/-- All children `buildSorbant` adds to its group, in construction order. -/
def sorbantChildren (lib : MathLib) : List Node :=
  [makeTrapWall lib (-HW) M.paroi,
   makeTrapWall lib HW M.paroi,
   bx W (H_AR lib) T M.paroi 0 (H_AR lib / 2) HD 0 0 0,
   bx W T D M.base 0 (T / 2) 0 0 0 0]
  ++ (List.range 5).map (fun i =>
      bx (W - T * 2 - 0.5) 1.2 (voletStep - 0.5) M.volet
        0 (T + 1.5) (-HD + 1 + voletStep * ((i : ℚ) + 0.5)) 0 0 0)
  ++ [cy 0.5 (D - 2) M.tringle (HW - T - 1) (T + 1.5) 0 (lib.pi / 2) 0,
      bx 2.5 3 5 M.servo (HW - T - 1.5) (T + 3) (HD - 8) 0 0 0,
      bx (W - T * 2) 1.5 (D - T * 2) M.nappe 0 (T + 3.5) 0 0 0 0,
      bx (W - T * 2) 0.4 (D - T * 2) M.grille 0 (T + 5.5) 0 0 0 0]
  ++ (List.range 8).map (fun i =>
      bx (W - T * 2) 0.18 0.22 M.grille
        0 (T + 5.9) (-HD + T + 1 + ((D - T * 2 - 2) / 7) * (i : ℚ)) 0 0 0)
  ++ (List.range 6).map (fun i =>
      bx 0.22 0.18 (D - T * 2) M.grille
        (-HW + T + 1 + ((W - T * 2 - 2) / 5) * (i : ℚ)) (T + 5.9) 0 0 0 0)
  ++ [bx (W - T * 2) 2.5 (D - T * 2) M.tissu 0 (T + 7.5) 0 0 0 0,
      bx (W - T * 2) 4.5 (D - T * 2) M.vapeur 0 (T + 11.5) 0 0 0 0,
      vitreM lib,
      edgeLine (vitreM lib) 0x88d8ff 0.9]
  ++ ([-HW + T / 2, HW - T / 2].map (fun xh =>
      cy 1.2 (T + 1) M.tringle xh (H_AR lib) (HD - 1) 0 (lib.pi / 2)))
  ++ [gout,
      edgeLine gout 0x3bc8f8 0.7,
      drainTube,
      bx W panH (T * 0.7) M.panneau 0 panY panZ 0 0 0,
      oledScreen,
      bx 10 2.8 0.8 M.oled 16 (panY + 0.3) (panZ - 0.6) 0 0 0,
      cy 1.0 1.5 M.btnRouge 7 (panY + 0.5) (panZ - 1.0) (lib.pi / 2) 0,
      cy 1.0 1.5 M.btnVert 3 (panY + 0.5) (panZ - 1.0) (lib.pi / 2) 0,
      bx 1.5 4 8 M.servo svX svY svZ 0 0 0,
      cy 0.6 2 M.tringle (svX - 1.0) (svY + 1) svZ 0 (lib.pi / 2),
      bx 4 0.8 0.8 M.tringle (svX - 2.5) (svY + 1) svZ 0 0 0.5,
      tigeTube,
      cy 0.5 7.5 M.ds18 (-10) (T + 12) 3 0 0,
      sphereDS18,
      bx 4 7 3 M.dht22 12 (T + 12) 2 0 0 0,
      cy 0.8 1.2 M.ldr (-HW - 0.3) (T + 2.5) (-HD + 4) 0 (lib.pi / 2),
      bx 1.5 4 5 M.dht22 (HW + T + 0.1) (H_AV * 0.6) (-HD + 16) 0 0 0]

/-- The `buildSorbant`: the sorbant module group. -/
def buildSorbant (lib : MathLib) : Node :=
  .group "sorbant" ⟨0, 0, 0⟩ (sorbantChildren lib)

end Sorbant

/-! ## modules/peltier.js — buildPeltier -/

namespace Peltier

def W : ℚ := 50
def D : ℚ := 40
def H : ℚ := 15
def HW : ℚ := W / 2
def HD : ℚ := D / 2
def T : ℚ := 2.0

def M.boitier : Material := stdMat 0xc0cace 0.28 0.88 1
def M.coldFace : Material := stdMat 0x1a7fd4 0.05 0.30 1
def M.hotFace : Material := stdMat 0x3a1a00 0.55 0.10 1
def M.tec : Material := stdMat 0xffffff 0.38 0.18 1
def M.fin : Material := stdMat 0xd4dfe8 0.15 0.92 1
def M.fan : Material := stdMat 0x1a2030 0.6 0.3 1
def M.fanBlade : Material := stdMat 0x5590cc 0.40 0.35 1
def M.vapeur : Material := stdMat 0x7ad4f0 0.0 0.0 0.05
def M.floor : Material := stdMat 0x8e9ca8 0.38 0.80 1
def M.canal : Material := stdMat 0x1f8ec2 0.4 0.55 1
def M.tuyau : Material := stdMat 0x2e86c1 0.45 0.50 0.85
def M.iso : Material := stdMat 0x5a4a30 0.97 0.0 1

/-- The flow-arrow material, built inline with
`new THREE.MeshStandardMaterial({color, opacity: 0.60, transparent: true,
depthTest: false})` — roughness/metalness/side keep the three.js defaults
(`1`, `0`, `FrontSide`). -/
def arrowMat : Material :=
  .standard { color := 0x60c0ee, roughness := 1, metalness := 0,
              opacity := 0.60, transparent := true, side := .front,
              depthTest := false }

def tecSz : ℚ := 5.5
def tecT : ℚ := 1.4
def tecY : ℚ := T + H * 0.38

/-- One iteration of the TEC loop (`for (const tz of tecZs)`). -/
def tecNodes (tz : ℚ) : List Node :=
  let tl := bx tecT tecSz tecSz M.tec (-HW + T / 2) tecY tz 0 0 0
  let cfl := bx 0.30 tecSz tecSz M.coldFace (-HW + T + 0.15) tecY tz 0 0 0
  let tr := bx tecT tecSz tecSz M.tec (HW - T / 2) tecY tz 0 0 0
  let cfr := bx 0.30 tecSz tecSz M.coldFace (HW - T - 0.15) tecY tz 0 0 0
  [tl, edgeLine tl 0xff6020 1.0,
   cfl, edgeLine cfl 0x1a7fd4 1.0,
   bx 0.25 tecSz tecSz M.hotFace (-HW + 0.12) tecY tz 0 0 0,
   bx 0.5 (tecSz + 0.5) (tecSz + 0.5) M.iso (-HW + T + 0.5) tecY tz 0 0 0,
   tr, edgeLine tr 0xff6020 1.0,
   cfr, edgeLine cfr 0x1a7fd4 1.0,
   bx 0.25 tecSz tecSz M.hotFace (HW - 0.12) tecY tz 0 0 0,
   bx 0.5 (tecSz + 0.5) (tecSz + 0.5) M.iso (HW - T - 0.5) tecY tz 0 0 0]

def finLen : ℚ := H * 0.65
def finBaseY : ℚ := T + H * 0.18
def finStep : ℚ := D / 10

def ifR : ℚ := 2.8
def ifY : ℚ := T + ifR + 0.5
def ifX : ℚ := HW - T - ifR - 0.4
def ifZ : ℚ := 0
def legH : ℚ := ifY - T - 0.45
def legY : ℚ := T + 0.45 + legH / 2

/-- Fan blade root segment (`castShadow = false` is set after `addM`). -/
def bladeRoot (lib : MathLib) (fx a : ℚ) : Node :=
  L { kind := .mesh, geom := some (.box 0.88 1.05 0.20),
      material := M.fanBlade,
      pos := ⟨fx, ifY + lib.cos a * 1.05, ifZ + lib.sin a * 1.05⟩,
      rot := ⟨a + 0.28, 0, 0⟩, castShadow := false, receiveShadow := true }

/-- Fan blade tip segment (skew `sk = 0.52`). -/
def bladeTip (lib : MathLib) (fx a : ℚ) : Node :=
  L { kind := .mesh, geom := some (.box 0.72 0.98 0.18),
      material := M.fanBlade,
      pos := ⟨fx, ifY + lib.cos (a + 0.52) * 1.88,
              ifZ + lib.sin (a + 0.52) * 1.88⟩,
      rot := ⟨a + 0.52 + 0.44, 0, 0⟩, castShadow := false,
      receiveShadow := true }

/-- One flow arrow cone (`castShadow = false` set after `addM`). -/
def flowCone (lib : MathLib) (sX fx dz : ℚ) : Node :=
  L { kind := .mesh, geom := some (.cone 0.50 1.9 8), material := arrowMat,
      pos := ⟨fx - sX * (ifR + 2.0), ifY, dz⟩,
      rot := ⟨0, 0, sX * lib.pi / 2⟩, castShadow := false,
      receiveShadow := true }

/-- One iteration of the fan loop (`for (const sX of [-1, 1])`). -/
def fanNodes (lib : MathLib) (sX : ℚ) : List Node :=
  let fx := sX * ifX
  [cy (ifR + 0.65) 1.1 M.fan fx ifY ifZ 0 (lib.pi / 2),
   cy (ifR + 0.65) 0.28 M.fan (fx - sX * 0.58) ifY ifZ 0 (lib.pi / 2),
   cy (ifR + 0.65) 0.28 M.fan (fx + sX * 0.58) ifY ifZ 0 (lib.pi / 2),
   cy 0.52 1.6 M.fan fx ifY ifZ 0 (lib.pi / 2)]
  ++ (List.range 6).flatMap (fun i =>
      let a := ((i : ℚ) / 6) * lib.pi * 2
      [bladeRoot lib fx a, bladeTip lib fx a])
  ++ [bx 1.5 0.45 (ifR * 2 + 1.2) M.fan fx (T + 0.22) ifZ 0 0 0,
      bx 0.95 legH 0.50 M.fan fx legY (ifZ - ifR + 0.3) 0 0 0,
      bx 0.95 legH 0.50 M.fan fx legY (ifZ + ifR - 0.3) 0 0 0]
  ++ ([-ifR * 0.65, 0, ifR * 0.65].map (flowCone lib sX fx))

def baseMesh : Node := bx W T D M.floor 0 (T / 2) 0 0 0 0

def gutW : ℚ := W - T * 2
def gutYp : ℚ := T + 0.45
def gutZp : ℚ := 0

def goutP : Node := bx gutW 0.85 (D - T * 2) M.canal 0 gutYp gutZp 0 0 0

/-- The sloped drip plate (`.rotation.z = 0.1` set after `bx`). -/
def pente : Node :=
  L { kind := .mesh, geom := some (.box (gutW / 2) 0.18 (D - T * 2 - 0.5)),
      material := M.canal, pos := ⟨-gutW / 4, gutYp - 0.28, gutZp⟩,
      rot := ⟨0, 0, 0.1⟩, castShadow := true, receiveShadow := true }

/-- The outlet tube on the left side of the floor gutter. -/
def peltierDrain : Node :=
  addMesh
    (.tube [⟨-HW + 5, gutYp - 0.3, -HD + 3⟩, ⟨-HW + 5, gutYp - 0.8, -HD - 1⟩,
            ⟨-HW + 5, gutYp - 1.6, -HD - 4⟩] 8 0.8 10 false)
    M.tuyau ⟨0, 0, 0⟩ ⟨0, 0, 0⟩

/-- All children `buildPeltier` adds, in construction order. -/
def peltierChildren (lib : MathLib) : List Node :=
  [baseMesh, edgeLine baseMesh 0x809ab0 0.55,
   bx W H T M.boitier 0 (H / 2) HD 0 0 0,
   bx T H D M.boitier (-HW + T / 2) (H / 2) 0 0 0 0,
   bx T H D M.boitier (HW - T / 2) (H / 2) 0 0 0 0]
  ++ ([-HD * 0.42, HD * 0.42].flatMap tecNodes)
  ++ (List.range 10).flatMap (fun i =>
      let zf := -HD + finStep * ((i : ℚ) + 0.5)
      [bx finLen 0.28 0.28 M.fin (-(HW + 0.5 + finLen / 2))
         (finBaseY + finLen / 2) zf 0 0 (lib.pi / 2),
       bx finLen 0.28 0.28 M.fin (HW + 0.5 + finLen / 2)
         (finBaseY + finLen / 2) zf 0 0 (lib.pi / 2)])
  ++ [bx 0.5 finLen D M.fin (-(HW + 0.35)) (finBaseY + finLen / 2) 0 0 0 0,
      bx 0.5 finLen D M.fin (HW + 0.35) (finBaseY + finLen / 2) 0 0 0 0]
  ++ ([-1, 1].flatMap (fanNodes lib))
  ++ [bx (W - T * 2) (H - 1.5) (D - T * 2) M.vapeur
        0 (T + (H - 1.5) / 2) 0 0 0 0,
      goutP, edgeLine goutP 0x3bc8f8 0.55,
      pente,
      peltierDrain]

/-- The `buildPeltier`: the Peltier condensation module group. -/
def buildPeltier (lib : MathLib) : Node :=
  .group "peltier" ⟨0, 0, 0⟩ (peltierChildren lib)

end Peltier

/-! ## modules/filtration.js — buildFiltration -/

namespace Filtration

def M.base : Material := stdMat 0xb0bec5 0.55 0.65 1
def M.canBlc : Material := stdMat 0xdce8f0 0.50 0.05 1
def M.canNoir : Material := stdMat 0x2a2a2a 0.88 0.05 1
def M.canBei : Material := stdMat 0xe8dcc8 0.60 0.05 1
def M.cap : Material := stdMat 0x8aaabb 0.35 0.65 1
def M.tuyau : Material := stdMat 0x2e86c1 0.45 0.50 0.88
def M.tds : Material := stdMat 0x1a1a1a 0.50 0.20 1
def M.tdsProbe : Material := stdMat 0xd4af37 0.25 0.80 1
def M.flowMeter : Material := stdMat 0x2980b9 0.40 0.55 1
def M.uvInox : Material := stdMat 0xd4dfe8 0.22 0.78 1
def M.uvWin : Material := stdMat 0x7ec8e3 0.05 0.05 0.55
def M.uvLed : Material := stdMat 0xbbdefb 0.10 0.00 0.92
def M.reserBody : Material := stdMat 0x80cbc4 0.08 0.05 0.38
def M.reserEdge : Material := stdMat 0x4db6ac 0.12 0.08 0.58
def M.eau : Material := stdMat 0x1565c0 0.00 0.00 0.28
def M.couv : Material := stdMat 0x78909c 0.50 0.60 1
def M.hcPcb : Material := stdMat 0x1565c0 0.60 0.15 1
def M.hcCyl : Material := stdMat 0xf5f5f5 0.70 0.05 1
def M.robinet : Material := stdMat 0xc0c0c0 0.28 0.80 1
def M.label : Material := stdMat 0xffffff 0.95 0.00 1
def M.collier : Material := stdMat 0x8e9ca8 0.30 0.80 1

/-- The filtration file's `pipe (parent, points, r = 0.55)` helper:
`TubeGeometry (curve, 14, r, 10, false)` with material `M.tuyau`. -/
def pipe (points : List Vec3) (r : ℚ) : Node :=
  addMesh (.tube points 14 r 10 false) M.tuyau ⟨0, 0, 0⟩ ⟨0, 0, 0⟩

def pipeY : ℚ := 12.5
def fmX : ℚ := -22
def tdsX : ℚ := -17

def canR : ℚ := 1.6
def canH : ℚ := 9.0
def canBY : ℚ := 1.2
def canRaccordY : ℚ := canBY + canH + 2.15

/-- One canister (`mkCan`), in construction order. -/
def mkCanNodes (x : ℚ) (bodyMat : Material) : List Node :=
  let body := cy canR canH bodyMat x (canBY + canH / 2) 0 0 0
  let capTop := cy (canR + 0.25) 0.7 M.cap x (canBY + canH + 0.35) 0 0 0
  [body, edgeLine body 0x78909c 0.60,
   capTop, edgeLine capTop 0x546e7a 0.60,
   cy (canR + 0.25) 0.7 M.cap x (canBY - 0.35) 0 0 0,
   cy 0.48 1.8 M.cap (x - 0.9) (canBY + canH + 1.25) 0 0 0,
   cy 0.48 1.8 M.cap (x + 0.9) (canBY + canH + 1.25) 0 0 0,
   bx (canR * 1.5) (canH * 0.35) 0.15 M.label x (canBY + canH * 0.55)
     (-canR + 0.08) 0 0 0]

/-- The inline UV-C unit (`mkUVC` at `x = 6`). -/
def uvcNodes (lib : MathLib) : List Node :=
  let body := cy 1.2 6.5 M.uvInox 6 pipeY 0 0 (lib.pi / 2)
  [body, edgeLine body 0x607d8b 0.72,
   cy (1.2 + 0.04) (6.5 * 0.50) M.uvWin 6 pipeY 0 0 (lib.pi / 2),
   cy 0.42 (6.5 * 0.45) M.uvLed 6 pipeY 0 0 (lib.pi / 2),
   cy (1.2 + 0.10) 0.8 M.cap (6 - 6.5 / 2 - 0.4) pipeY 0 0 (lib.pi / 2),
   cy (1.2 + 0.10) 0.8 M.cap (6 + 6.5 / 2 + 0.4) pipeY 0 0 (lib.pi / 2)]

def uvcExitX : ℚ := 6 + 6.5 / 2 + 0.9

def RX : ℚ := 16
def RW : ℚ := 16
def RH : ℚ := 13
def RD : ℚ := 14
def RZ : ℚ := -11
def BY : ℚ := 1.2
def robZ : ℚ := RZ - RD / 2 - 1.5
def robY : ℚ := BY + 3.0
def entryX : ℚ := RX - RW / 2 + 1.5

def basePlate : Node := bx 50 1.2 36 M.base 0 0.6 0 0 0 0
def reserEdgeBox : Node := bx RW RH RD M.reserEdge RX (BY + RH / 2) RZ 0 0 0
def couv : Node := bx RW 0.6 RD M.couv RX (BY + RH + 0.3) RZ 0 0 0
def hcPcb : Node := bx 3.6 0.35 1.5 M.hcPcb (RX + 3) (BY + RH + 0.7) RZ 0 0 0

def fmBody (lib : MathLib) : Node :=
  cy 1.4 4.0 M.flowMeter fmX pipeY 0 0 (lib.pi / 2)
def tdsBody (lib : MathLib) : Node :=
  cy 1.2 4.5 M.tds tdsX pipeY 0 0 (lib.pi / 2)

/-- All children `buildFiltration` adds, in construction order. -/
def filtrationChildren (lib : MathLib) : List Node :=
  [basePlate, edgeLine basePlate 0x546e7a 0.55]
  ++ ([((-1 : ℚ), (-1 : ℚ)), (1, -1), (-1, 1), (1, 1)].map
      (fun p => cy 0.5 2.8 M.base (p.1 * 23) 1.4 (p.2 * 16) 0 0))
  ++ [fmBody lib, edgeLine (fmBody lib) 0x1a5f8a 0.80,
      cy 0.6 3.2 M.tuyau fmX pipeY 0 0 (lib.pi / 2),
      tdsBody lib, edgeLine (tdsBody lib) 0x333333 0.80]
  ++ ([-0.7, 0.7].map
      (fun ex => cy 1.08 0.28 M.tdsProbe (tdsX + ex) pipeY 0 0 (lib.pi / 2)))
  ++ mkCanNodes (-12) M.canBlc
  ++ mkCanNodes (-6) M.canNoir
  ++ mkCanNodes 0 M.canBei
  ++ uvcNodes lib
  ++ [bx RW RH RD M.reserBody RX (BY + RH / 2) RZ 0 0 0,
      reserEdgeBox, edgeLine reserEdgeBox 0x26a69a 0.72,
      bx (RW - 0.5) (RH * 0.60) (RD - 0.5) M.eau RX (BY + RH * 0.30) RZ 0 0 0,
      couv, edgeLine couv 0x546e7a 0.60,
      cy 0.52 1.6 M.cap (RX - RW / 2 + 1.5) (BY + RH + 1.1) RZ 0 0,
      hcPcb, edgeLine hcPcb 0x0d47a1 0.75]
  ++ ([-0.5, 0.5].flatMap (fun dz =>
      [cy 0.65 1.0 M.hcCyl (RX + 2.2) (BY + RH + 1.5) (RZ + dz) 0 0,
       cy 0.65 1.0 M.hcCyl (RX + 3.8) (BY + RH + 1.5) (RZ + dz) 0 0]))
  ++ [cy 0.80 3.0 M.robinet RX robY robZ (lib.pi / 2) 0,
      bx 0.45 3.5 0.45 M.robinet RX (robY + 1.5) (robZ - 0.8) 0 0 0.4,
      pipe [⟨RX, robY, robZ - 1.6⟩, ⟨RX, robY - 1.2, robZ - 3.2⟩,
            ⟨RX, robY - 3.0, robZ - 4.8⟩] 0.48,
      pipe [⟨-25, pipeY, 0⟩, ⟨fmX - 2.1, pipeY, 0⟩] 0.55,
      pipe [⟨fmX + 2.1, pipeY, 0⟩, ⟨tdsX - 1.5, pipeY, 0⟩] 0.55,
      pipe [⟨tdsX + 1.5, pipeY, 0⟩, ⟨-12 - 0.9, pipeY, 0⟩,
            ⟨-12 - 0.9, canRaccordY, 0⟩] 0.55,
      pipe [⟨-12 + 0.9, canRaccordY, 0⟩, ⟨-12 + 0.9, pipeY + 1.4, 0⟩,
            ⟨-6 - 0.9, pipeY + 1.4, 0⟩, ⟨-6 - 0.9, canRaccordY, 0⟩] 0.55,
      pipe [⟨-6 + 0.9, canRaccordY, 0⟩, ⟨-6 + 0.9, pipeY + 1.4, 0⟩,
            ⟨0 - 0.9, pipeY + 1.4, 0⟩, ⟨0 - 0.9, canRaccordY, 0⟩] 0.55,
      pipe [⟨0 + 0.9, canRaccordY, 0⟩, ⟨0 + 0.9, pipeY, 0⟩,
            ⟨6 - 3.7, pipeY, 0⟩] 0.55,
      pipe [⟨uvcExitX, pipeY, 0⟩, ⟨entryX + 4, pipeY, RZ * 0.4⟩,
            ⟨entryX + 4, BY + RH + 2.0, RZ⟩, ⟨entryX, BY + RH + 1.1, RZ⟩] 0.55]
  ++ ([-24, -19, -14, -8, -2, 4, 12].map
      (fun cx => cy 1.1 0.6 M.collier cx pipeY 0 0 (lib.pi / 2)))

/-- The `buildFiltration`: the filtration + reservoir module group. -/
def buildFiltration (lib : MathLib) : Node :=
  .group "filtration" ⟨0, 0, 0⟩ (filtrationChildren lib)

end Filtration

/-! ## modules/assemblage.js (part_000) — buildAssemblage -/

namespace Assemblage

/-- The assemblage file's pipe material
(`mat (0x2e86c1, {roughness: 0.45, metalness: 0.50, opacity: 0.88})`). -/
def pipeMat : Material := stdMat 0x2e86c1 0.45 0.50 0.88

/-- The `pipe (parent, points, r = 0.60)`:
`TubeGeometry (CatmullRomCurve3 (points), 14, r, 10, false)`. -/
def pipe (points : List Vec3) (r : ℚ) : Node :=
  addMesh (.tube points 14 r 10 false) pipeMat ⟨0, 0, 0⟩ ⟨0, 0, 0⟩

/-- The `labelSprite`: a camera-facing text sprite,
`SpriteMaterial {opacity: 0.92, transparent: true, depthTest: false}`,
`scale.set (scaleW, 6, 1)`, `userData.isLabel = true` (the border colour
only affects the canvas texture and is not modelled). -/
def labelSprite (text : String) (x y z scaleW : ℚ) : Node :=
  L { kind := .sprite, material := .spriteMat 0.92 true false,
      pos := ⟨x, y, z⟩, scaleV := ⟨scaleW, 6, 1⟩, text, isLabel := true }

def Y_ELEC : ℚ := 0
def Y_FILTR : ℚ := 11
def Y_PELTIER : ℚ := 33
def Y_SORBANT : ℚ := 50

def acryl : Material := stdMat 0xc8dff0 0.04 0.00 0.13
def acrylFront : Material := stdMat 0xc8dff0 0.04 0.00 0.10

/-- The solar-cable material, built inline with `new MeshStandardMaterial
({color: 0xf4d03f, roughness: 0.5, metalness: 0.4})` (opacity, transparent
and side keep the three.js defaults). -/
def solarPipeMat : Material :=
  .standard { color := 0xf4d03f, roughness := 0.5, metalness := 0.4 }

/-- The `buildElec (parent)`: every node it adds directly to the assemblage
group, in construction order (`EW = 50`, `EH = 10`, `ED = 40`,
`EY = EH / 2`, wall thickness `0.5`). -/
def buildElec (lib : MathLib) : List Node :=
  let EW : ℚ := 50
  let EH : ℚ := 10
  let ED : ℚ := 40
  let EY : ℚ := EH / 2
  let eT : ℚ := 0.5
  let front := bx EW EH eT acrylFront 0 EY (-ED / 2) 0 0 0
  let back := bx EW EH eT acryl 0 EY (ED / 2) 0 0 0
  let batt := bx 15 8 6.5 (stdMat 0x1a1a1a 0.88 0.05 1) (-13) EY 0 0 0 0
  let pcb := bx 20 0.35 13 (stdMat 0x2e7d32 0.65 0.15 1) 8 (EY + 1.5) 0 0 0 0
  let mppt := bx 7 4.5 5 (stdMat 0xb71c1c 0.65 0.20 1) 4 EY (-8) 0 0 0
  [front, edgeLine front 0x90a4ae 0.95,
   back, edgeLine back 0x90a4ae 0.70,
   bx eT EH ED acryl (-EW / 2) EY 0 0 0 0,
   bx eT EH ED acryl (EW / 2) EY 0 0 0 0,
   bx EW eT ED (stdMat 0x37474f 0.65 0.70 1) 0 (eT / 2) 0 0 0 0,
   bx EW eT ED acryl 0 (EH - eT / 2) 0 0 0 0,
   L { kind := .mesh,
       geom := some (.tube [⟨-EW / 2 + 1, EY + 2, 2⟩, ⟨-18, EY + 2.5, 2⟩,
                            ⟨-10, EY + 2.5, -4⟩, ⟨4, EY + 1.5, -7⟩]
                     12 0.28 8 false),
       material := solarPipeMat },
   batt, edgeLine batt 0x424242 0.65,
   cy 0.55 1.0 (stdMat 0xd4af37 0.22 0.85 1) (-15.5) (EH - 0.2) 0
     (lib.pi / 2) 0,
   cy 0.55 1.0 (stdMat 0xc0392b 0.22 0.85 1) (-10.5) (EH - 0.2) 0
     (lib.pi / 2) 0,
   pcb, edgeLine pcb 0x388e3c 0.70]
  ++ (List.range 4).map (fun i =>
      bx 1.6 1.2 1.2 (stdMat 0x01579b 0.55 0.30 1)
        (-2 + (i : ℚ) * 3.5) (EY + 2.4) 2.5 0 0 0)
  ++ [bx 5.5 0.4 3.3 (stdMat 0x37474f 0.55 0.50 1) 10 (EY + 2.3) (-3.0)
        0 0 0,
      mppt, edgeLine mppt 0xe53935 0.70]
  ++ (List.range 3).map (fun i =>
      bx 0.7 0.7 0.3
        (stdMat ([0x43a047, 0xfdd835, 0xef5350].getD i 0) 0.10 0.00 0.95)
        (-8 + (i : ℚ) * 3.0) EY (-(ED / 2 - 0.4)) 0 0 0)
  ++ [pipe [⟨0, 0, -14⟩, ⟨2, -2, -16⟩, ⟨4, -3.5, -18⟩] 0.32]

/-- The `buildPanneau (parent)`: the 50 W solar panel nodes, in order
(`PX = -68`, `PY = Y_ELEC + 8`, `PZ = 0`). -/
def buildPanneau : List Node :=
  let PX : ℚ := -68
  let PY : ℚ := Y_ELEC + 8
  let PZ : ℚ := 0
  let pan := bx 54 34 1.5 (stdMat 0xb0bec5 0.40 0.80 1) PX (PY + 17) PZ 0 0 0
  [pan, edgeLine pan 0x78909c 0.70]
  ++ (List.range 3).flatMap (fun row =>
      (List.range 5).map (fun col =>
        bx 9.5 6.0 0.4 (stdMat 0x1a237e 0.15 0.20 1)
          (PX - 18 + (col : ℚ) * 10.2) (PY + 5 + (row : ℚ) * 8.0)
          (PZ - 0.6) 0 0 0))
  ++ [bx 5 2.5 1.8 (stdMat 0x212121 0.80 0.10 1) PX PY (PZ - 1.2) 0 0 0,
      pipe [⟨PX + 27, PY + 10, PZ⟩, ⟨PX + 42, PY + 4, 6⟩,
            ⟨-22, Y_ELEC + 4, 8⟩, ⟨-22, Y_ELEC + 2, 0⟩] 0.35]
  ++ ([(1 : ℚ), -1].map (fun sx =>
      bx 1.5 20 1.5 (stdMat 0x9eaab5 0.50 0.70 1)
        (PX + sx * 20) (PY + 8) (PZ + 0.8) 0.3 0 0))

def R_INTER : ℚ := 0.60
def fitMat : Material := stdMat 0xcfd8dc 0.18 0.90 1
def colMat : Material := stdMat 0x90a4ae 0.22 0.85 1

/-- The `buildFluxEau (parent)`: the inter-module water network, in order.
The fitting meshes are created with plain `new THREE.Mesh` (no shadow
flags set). -/
def buildFluxEau (lib : MathLib) : List Node :=
  let SX : ℚ := -20
  let SY : ℚ := Y_SORBANT + 4.4
  let SZ : ℚ := -21.3
  let PXf : ℚ := -20
  let PYf : ℚ := Y_PELTIER + 0.85
  let PZf : ℚ := -24
  let JX : ℚ := -24
  let JY : ℚ := Y_PELTIER - 8
  let JZ : ℚ := -20
  let FX : ℚ := -25
  let FY : ℚ := Y_FILTR + 12.5
  let FZ : ℚ := 0
  let R_FIT : ℚ := R_INTER * 1.55
  let R_IN : ℚ := R_INTER * 0.85
  [pipe [⟨SX, SY, SZ⟩, ⟨SX, Y_PELTIER + 8, SZ⟩, ⟨SX, PYf + 2, SZ⟩,
         ⟨JX, JY, JZ⟩] R_INTER,
   pipe [⟨PXf, PYf, PZf⟩, ⟨PXf, PYf, JZ + 2⟩, ⟨JX, JY, JZ⟩] R_INTER,
   L { kind := .mesh,
       geom := some (.cylinder R_FIT R_FIT (R_INTER * 6) 16),
       material := fitMat, pos := ⟨JX, JY, JZ⟩ }]
  ++ ([-R_INTER * 2.8, R_INTER * 2.8].map (fun dy =>
      L { kind := .mesh,
          geom := some (.cylinder (R_FIT + 0.3) (R_FIT + 0.3) 0.7 16),
          material := colMat, pos := ⟨JX, JY + dy, JZ⟩ }))
  ++ [L { kind := .mesh,
          geom := some (.cylinder R_FIT R_FIT (R_INTER * 5) 16),
          material := fitMat, pos := ⟨JX + R_INTER * 2, JY, JZ⟩,
          rot := ⟨0, 0, lib.pi / 2⟩ },
      L { kind := .mesh,
          geom := some (.cylinder (R_FIT + 0.3) (R_FIT + 0.3) 0.7 16),
          material := colMat, pos := ⟨JX + R_INTER * 4, JY, JZ⟩,
          rot := ⟨0, 0, lib.pi / 2⟩ },
      L { kind := .mesh,
          geom := some (.cylinder R_IN R_IN (R_INTER * 7) 12),
          material := stdMat 0x1a3a4a 0.1 0.0 0.40, pos := ⟨JX, JY, JZ⟩ },
      pipe [⟨JX, JY, JZ⟩, ⟨FX, FY + 4, JZ * 0.4⟩, ⟨FX, FY, FZ⟩] R_INTER]

/-- All children of the assemblage group, in construction order:
electronics nodes (directly in the group, hence at vertical offset 0), the
three sub-module groups re-positioned at their stack offsets, the solar
panel, the water network, and the four text-label sprites. -/
def assemblageChildren (lib : MathLib) : List Node :=
  buildElec lib
  ++ [(Filtration.buildFiltration lib).setPos ⟨0, Y_FILTR, 0⟩,
      (Peltier.buildPeltier lib).setPos ⟨0, Y_PELTIER, 0⟩,
      (Sorbant.buildSorbant lib).setPos ⟨0, Y_SORBANT, 0⟩]
  ++ buildPanneau
  ++ buildFluxEau lib
  ++ [labelSprite "SORBANT" 0 (Y_SORBANT + 30) 32 32,
      labelSprite "PELTIER TEC" 0 (Y_PELTIER + 22) 32 32,
      labelSprite "FILTRATION + RÉSERVOIR" 0 (Y_FILTR + 22) 28 50,
      labelSprite "ÉLECTRONIQUE" 0 (Y_ELEC + 8) 28 32]

/-- The `buildAssemblage`: the full stacked-assembly group. -/
def buildAssemblage (lib : MathLib) : Node :=
  .group "assemblage" ⟨0, 0, 0⟩ (assemblageChildren lib)

end Assemblage

/-! ## Object allocation model

Each call of a module assembler executes `new THREE.Group ()`,
`new THREE.Mesh (...)`, `mat () = new THREE.MeshStandardMaterial (...)`, …
— every object of the returned tree is freshly allocated.  `alloc` models
one build call: it assigns a contiguous block of fresh object identities to
the nodes of the tree.  Mutable per-object state (the `visible` flag, the
material's `wireframe` flag) lives in a store indexed by identity. -/

/-- Mutable per-object state (`Object3D.visible`,
`material.wireframe`), with the three.js defaults. -/
structure ObjMut where
  visible : Bool := true
  wireframe : Bool := false
deriving DecidableEq, Repr, Inhabited

/-- The allocator state: next fresh identity and the per-object store. -/
structure Scene3 where
  next : ℕ
  state : ℕ → ObjMut

/-- The empty world before any build call. -/
def scene0 : Scene3 := ⟨0, fun _ => {}⟩

/-- One built module instance: its base identity and its node tree. -/
structure Inst where
  base : ℕ
  tree : Node

/-- Run one builder output through the allocator: the tree's objects get
the identities `[s.next, s.next + sizeNode t)`, each with default state. -/
def alloc (s : Scene3) (t : Node) : Scene3 × Inst :=
  (⟨s.next + sizeNode t,
    fun i => if s.next ≤ i ∧ i < s.next + sizeNode t then {} else s.state i⟩,
   ⟨s.next, t⟩)

/-- The `inst.owns id`: object `id` belongs to this instance. -/
def Inst.owns (inst : Inst) (id : ℕ) : Prop :=
  inst.base ≤ id ∧ id < inst.base + sizeNode inst.tree

instance (inst : Inst) (id : ℕ) : Decidable (inst.owns id) :=
  inferInstanceAs (Decidable (_ ∧ _))

/-- Mutate one object's `visible` flag. -/
def setVisible (s : Scene3) (id : ℕ) (b : Bool) : Scene3 :=
  { s with state := fun j =>
      if j = id then { s.state id with visible := b } else s.state j }

/-- Mutate one object's material `wireframe` flag. -/
def setWireframe (s : Scene3) (id : ℕ) (b : Bool) : Scene3 :=
  { s with state := fun j =>
      if j = id then { s.state id with wireframe := b } else s.state j }

/-- Allocate the same builder output twice in sequence (two calls of the
assembler): final store and the two instances. -/
def allocTwice (s0 : Scene3) (t : Node) : Scene3 × Inst × Inst :=
  let r1 := alloc s0 t
  let r2 := alloc r1.1 t
  (r2.1, r1.2, r2.2)

/-! ## main.js — the view/state controller -/

namespace Main

/-- One scene object as the controller's `scene.traverse` sees it: which
top-level group holds it (`"scene"` for the ground plane and grid), whether
it `isMesh`, its `userData.isLabel` mark, and its material's `wireframe`
flag. -/
structure SceneObj where
  owner : String
  isMesh : Bool
  isLabel : Bool
  wireframe : Bool
deriving DecidableEq, Repr

/-- The controller state of main.js: the four modules' `visible` flags,
`activeModule`, the UI toggles, `controls.autoRotateSpeed`, the camera
position, the orbit target, and the scene objects. -/
structure State where
  peltierVisible : Bool
  sorbantVisible : Bool
  filtrationVisible : Bool
  assemblageVisible : Bool
  activeModule : String
  wireOn : Bool
  autoRot : Bool
  rotSpeed : ℚ
  camPos : Vec3
  target : Vec3
  objs : List SceneObj
deriving DecidableEq, Repr

/-- The own keys of the `modules` object literal. -/
def knownNames : List String := ["peltier", "sorbant", "filtration", "assemblage"]

/-- The `Object.prototype` own properties every object literal inherits;
`modules[k]` is truthy (a function or an object) for each of them. -/
def protoKeys : List String :=
  ["constructor", "hasOwnProperty", "isPrototypeOf", "propertyIsEnumerable",
   "toLocaleString", "toString", "valueOf", "__defineGetter__",
   "__defineSetter__", "__lookupGetter__", "__lookupSetter__", "__proto__"]

/-- Result of the JavaScript property read `modules[name]`. -/
inductive Lookup where
  | own
  | inherited
  | absent
deriving DecidableEq, Repr

/-- The `modules[name]`: an own key yields the module group, an inherited
`Object.prototype` key yields a truthy non-module value, anything else
yields `undefined` (falsy). -/
def modulesLookup (name : String) : Lookup :=
  if name ∈ knownNames then .own
  else if name ∈ protoKeys then .inherited
  else .absent

/-- The `visible` flag of module `n` in state `s`. -/
def moduleVisible (s : State) (n : String) : Bool :=
  if n = "peltier" then s.peltierVisible
  else if n = "sorbant" then s.sorbantVisible
  else if n = "filtration" then s.filtrationVisible
  else if n = "assemblage" then s.assemblageVisible
  else false

/-- The `Object.keys (modules).forEach (k => modules[k].visible = false)`. -/
def hideAll (s : State) : State :=
  { s with peltierVisible := false, sorbantVisible := false,
           filtrationVisible := false, assemblageVisible := false }

/-- The `modules[name].traverse (o => { if (o.isMesh && !o.userData.isLabel)
o.material.wireframe = wireOn })`. -/
def applyWire (name : String) (w : Bool) (objs : List SceneObj) :
    List SceneObj :=
  objs.map (fun o =>
    if o.owner = name ∧ o.isMesh ∧ ¬o.isLabel
    then { o with wireframe := w } else o)

/-- The `window.switchModule (name)`.  `.ok` is a completed call; `.error` is
the state left behind when the call throws: for an inherited
`Object.prototype` key, `!modules[name]` is false (the value is truthy), so
the handler hides every module and assigns `activeModule`, and then
`modules[name].traverse` throws a `TypeError` (the value has no
`traverse`), before the wireframe re-application and the camera reset. -/
def switchModule (name : String) (s : State) : Except State State :=
  match modulesLookup name with
  | .absent => .ok s
  | .inherited => .error { hideAll s with activeModule := name }
  | .own =>
      .ok { s with
            peltierVisible := name == "peltier",
            sorbantVisible := name == "sorbant",
            filtrationVisible := name == "filtration",
            assemblageVisible := name == "assemblage",
            activeModule := name,
            objs := applyWire name s.wireOn s.objs,
            camPos := if name = "assemblage" then ⟨170, 105, 170⟩
                      else ⟨95, 55, 95⟩,
            target := if name = "assemblage" then ⟨0, 40, 0⟩
                      else ⟨0, 7, 0⟩ }

/-- The state after `switchModule`, whether it completed or threw. -/
def runSwitch (name : String) (s : State) : State :=
  match switchModule name s with
  | .ok t => t
  | .error t => t

/-- The `window.toggleWire ()`: flip `wireOn`, then
`scene.traverse (o => { if (o.isMesh && !o.userData.isLabel)
o.material.wireframe = wireOn })` — every non-label mesh in the whole
scene, all modules included. -/
def toggleWire (s : State) : State :=
  let w := !s.wireOn
  { s with wireOn := w,
           objs := s.objs.map (fun o =>
             if o.isMesh ∧ ¬o.isLabel then { o with wireframe := w } else o) }

/-- The `window.toggleRot ()`. -/
def toggleRot (s : State) : State :=
  { s with autoRot := !s.autoRot, rotSpeed := 1.2 }

/-- The `window.resetView ()`. -/
def resetView (s : State) : State :=
  { s with camPos := ⟨100, 60, 100⟩, target := ⟨0, 7, 0⟩ }

mutual

/-- The controller-visible objects of a module tree: the group object
itself (never a mesh) and all its descendants, each with the material
default `wireframe = false`. -/
def objsOfNode (owner : String) : Node → List SceneObj
  | .leaf d => [{ owner, isMesh := d.kind == .mesh, isLabel := d.isLabel,
                  wireframe := false }]
  | .group _ _ cs =>
      { owner, isMesh := false, isLabel := false, wireframe := false }
        :: objsOfNodes owner cs

/-- The `objsOfNode` over a child list. -/
def objsOfNodes (owner : String) : List Node → List SceneObj
  | [] => []
  | n :: ns => objsOfNode owner n ++ objsOfNodes owner ns

end

/-- The ground plane (a mesh, `userData` unmarked). -/
def solObj : SceneObj :=
  { owner := "scene", isMesh := true, isLabel := false, wireframe := false }

/-- The grid helper (`LineSegments`, not a mesh). -/
def gridObj : SceneObj :=
  { owner := "scene", isMesh := false, isLabel := false, wireframe := false }

/-- The scene contents built at startup: ground, grid, and the four
module groups (lights are neither meshes nor labels and are omitted). -/
def initObjs (lib : MathLib) : List SceneObj :=
  [solObj, gridObj]
  ++ objsOfNode "peltier" (Peltier.buildPeltier lib)
  ++ objsOfNode "sorbant" (Sorbant.buildSorbant lib)
  ++ objsOfNode "filtration" (Filtration.buildFiltration lib)
  ++ objsOfNode "assemblage" (Assemblage.buildAssemblage lib)

/-- The startup state of main.js: only the Peltier module visible,
camera at `(95, 55, 95)` targeting `(0, 7, 0)`, both toggles off
(`autoRotateSpeed` at the `OrbitControls` default `2`). -/
def initState (lib : MathLib) : State where
  peltierVisible := true
  sorbantVisible := false
  filtrationVisible := false
  assemblageVisible := false
  activeModule := "peltier"
  wireOn := false
  autoRot := false
  rotSpeed := 2
  camPos := ⟨95, 55, 95⟩
  target := ⟨0, 7, 0⟩
  objs := initObjs lib

/-- The states the controller can reach from startup through its four UI
entry points, including states left behind by a throwing
`switchModule` call. -/
inductive Reach (lib : MathLib) : State → Prop where
  | start : Reach lib (initState lib)
  | switchOk (name : String) {s s' : State} :
      Reach lib s → switchModule name s = .ok s' → Reach lib s'
  | switchErr (name : String) {s s' : State} :
      Reach lib s → switchModule name s = .error s' → Reach lib s'
  | wire {s : State} : Reach lib s → Reach lib (toggleWire s)
  | rot {s : State} : Reach lib s → Reach lib (toggleRot s)
  | reset {s : State} : Reach lib s → Reach lib (resetView s)

end Main

/-! ## Auxiliary definitions for the statements -/

/-- Componentwise subtraction. -/
def Vec3.sub (a b : Vec3) : Vec3 := ⟨a.x - b.x, a.y - b.y, a.z - b.z⟩

/-- Cross product. -/
def Vec3.cross (a b : Vec3) : Vec3 :=
  ⟨a.y * b.z - a.z * b.y, a.z * b.x - a.x * b.z, a.x * b.y - a.y * b.x⟩

/-- Dot product. -/
def Vec3.dot (a b : Vec3) : ℚ := a.x * b.x + a.y * b.y + a.z * b.z

/-- Group a flat index list into triangles. -/
def triTriples : List ℕ → List (ℕ × ℕ × ℕ)
  | a :: b :: c :: rest => (a, b, c) :: triTriples rest
  | _ => []

/-- Face normal of an indexed triangle, with the usual counter-clockwise
orientation (`(B - A) × (C - B)`), as used by `computeVertexNormals`. -/
def triNormal (vs : List Vec3) (t : ℕ × ℕ × ℕ) : Vec3 :=
  let zv : Vec3 := ⟨0, 0, 0⟩
  let A := vs.getD t.1 zv
  let B := vs.getD t.2.1 zv
  let C := vs.getD t.2.2 zv
  Vec3.cross (B.sub A) (C.sub B)

namespace Sorbant

/-- The geometric outward direction of the solid wall's face that each of
the 12 triangles of `trapIdx` is meant to cover (in source-comment order:
outer, outer, inner, inner, front, front, rear, rear, bottom, bottom, top,
top).  For a left wall (`xPos < 0`) the outer face points in `-x`; for a
right wall in `+x`.  The top direction follows the inclined lid. -/
def outwardDirs (lib : MathLib) (xPos : ℚ) : List Vec3 :=
  let s : ℚ := if xPos < 0 then -1 else 1
  let slope := H_AR lib - H_AV
  [⟨s, 0, 0⟩, ⟨s, 0, 0⟩, ⟨-s, 0, 0⟩, ⟨-s, 0, 0⟩,
   ⟨0, 0, -1⟩, ⟨0, 0, -1⟩, ⟨0, 0, 1⟩, ⟨0, 0, 1⟩,
   ⟨0, -1, 0⟩, ⟨0, -1, 0⟩, ⟨0, D, -slope⟩, ⟨0, D, -slope⟩]

/-- For each triangle of the wall, the dot product of its winding normal
with the face's outward direction — positive means wound outward. -/
def windingDots (lib : MathLib) (xPos : ℚ) : List ℚ :=
  ((triTriples trapIdx).zip (outwardDirs lib xPos)).map
    (fun p => Vec3.dot (triNormal (trapVerts lib xPos) p.1) p.2)

/-- The affine plane (as a residual function) of the face each triangle is
meant to cover, in the same order as `outwardDirs`. -/
def facePlanes (lib : MathLib) (xPos : ℚ) : List (Vec3 → ℚ) :=
  let x0 := xPos
  let x1 := trapX1 xPos
  let slope := H_AR lib - H_AV
  [fun v => v.x - x0, fun v => v.x - x0,
   fun v => v.x - x1, fun v => v.x - x1,
   fun v => v.z + HD, fun v => v.z + HD,
   fun v => v.z - HD, fun v => v.z - HD,
   fun v => v.y, fun v => v.y,
   fun v => D * v.y - slope * (v.z + HD) - D * H_AV,
   fun v => D * v.y - slope * (v.z + HD) - D * H_AV]

/-- Plane residuals of all three vertices of all 12 triangles: the wall's
triangles cover the six faces exactly when all residuals vanish. -/
def faceResiduals (lib : MathLib) (xPos : ℚ) : List ℚ :=
  ((triTriples trapIdx).zip (facePlanes lib xPos)).flatMap
    (fun p =>
      let zv : Vec3 := ⟨0, 0, 0⟩
      let vs := trapVerts lib xPos
      [p.2 (vs.getD p.1.1 zv), p.2 (vs.getD p.1.2.1 zv),
       p.2 (vs.getD p.1.2.2 zv)])

end Sorbant

/-- The two-waypoint test path of the tube-builder property. -/
def pipePts : List Vec3 := [⟨0, 0, 0⟩, ⟨0, 10, 0⟩]

/-- The `transparent` flag of a material. -/
def Material.transparentB : Material → Bool
  | .standard d => d.transparent
  | .basic _ _ t _ => t
  | .lineBasic _ _ t _ => t
  | .spriteMat _ t _ => t

/-- The `side` of a material (non-mesh materials report the default). -/
def Material.sideOf : Material → Side
  | .standard d => d.side
  | _ => .front

/-- The `opacity` of a material. -/
def Material.opacityOf : Material → ℚ
  | .standard d => d.opacity
  | .basic _ _ _ _ => 1
  | .lineBasic _ o _ _ => o
  | .spriteMat o _ _ => o

/-- The number of objects the sorbant build allocates (under `qlib`). -/
def sorSize : ℕ := sizeNode (Sorbant.buildSorbant qlib)

namespace Main

/-- The camera position `switchModule` installs for a known module. -/
def camPreset (name : String) : Vec3 :=
  if name = "assemblage" then ⟨170, 105, 170⟩ else ⟨95, 55, 95⟩

/-- The orbit target `switchModule` installs for a known module. -/
def targetPreset (name : String) : Vec3 :=
  if name = "assemblage" then ⟨0, 40, 0⟩ else ⟨0, 7, 0⟩

/-- How many of the four modules are visible. -/
def visCount (s : State) : ℕ := knownNames.countP (moduleVisible s)

/-- The invariant tying every non-label mesh's wireframe flag to the
controller's `wireOn`. -/
def WireInv (s : State) : Prop :=
  ∀ o ∈ s.objs, o.isMesh = true → o.isLabel = false → o.wireframe = s.wireOn

/-- The controller toggle value after `n` presses of the wireframe button. -/
def wireAfter (w : Bool) (n : ℕ) : Bool := if n % 2 = 1 then !w else w

/-- A label sprite, for the concrete toggle scenario. -/
def demoLabel : SceneObj :=
  { owner := "demo", isMesh := false, isLabel := true, wireframe := false }

/-- A solid (non-label) mesh, for the concrete toggle scenario. -/
def demoSolid : SceneObj :=
  { owner := "demo", isMesh := true, isLabel := false, wireframe := false }

/-- A minimal state holding one label and one solid primitive. -/
def demoState : State where
  peltierVisible := true
  sorbantVisible := false
  filtrationVisible := false
  assemblageVisible := false
  activeModule := "peltier"
  wireOn := false
  autoRot := false
  rotSpeed := 2
  camPos := ⟨95, 55, 95⟩
  target := ⟨0, 7, 0⟩
  objs := [demoLabel, demoSolid]

end Main

/-! ## Theorems -/

/-- C6: calling any module assembler (`buildSorbant`, `buildPeltier`,
`buildFiltration`, `buildAssemblage`) twice produces two structurally
congruent module trees (identical node lists, hence the same count and
type of primitives and the same relative transforms) whose allocated
objects are disjoint: mutating the visibility or the material wireframe
flag of any object of one instance leaves every object of the other
instance unchanged. -/
theorem builders_independent (lib : MathLib) (s0 : Scene3) (B : MathLib → Node)
    (_hB : B = Sorbant.buildSorbant ∨ B = Peltier.buildPeltier ∨
          B = Filtration.buildFiltration ∨ B = Assemblage.buildAssemblage)
    (id id' : ℕ) (b : Bool)
    (h1 : (allocTwice s0 (B lib)).2.1.owns id)
    (h2 : (allocTwice s0 (B lib)).2.2.owns id') :
    (allocTwice s0 (B lib)).2.1.tree = (allocTwice s0 (B lib)).2.2.tree ∧
    id ≠ id' ∧
    (setVisible (allocTwice s0 (B lib)).1 id b).state id' =
      (allocTwice s0 (B lib)).1.state id' ∧
    (setWireframe (allocTwice s0 (B lib)).1 id b).state id' =
      (allocTwice s0 (B lib)).1.state id' ∧
    (setVisible (allocTwice s0 (B lib)).1 id' b).state id =
      (allocTwice s0 (B lib)).1.state id ∧
    (setWireframe (allocTwice s0 (B lib)).1 id' b).state id =
      (allocTwice s0 (B lib)).1.state id := by
  simp only [allocTwice, alloc, Inst.owns] at h1 h2
  have hne : id ≠ id' := by omega
  refine ⟨rfl, hne, ?_, ?_, ?_, ?_⟩ <;>
    simp only [setVisible, setWireframe] <;>
    first
      | rw [if_neg (Ne.symm hne)]
      | rw [if_neg hne]

/-- Witness for C6: two sorbant builds under the concrete interpretation,
with the first object of each instance. -/
theorem builders_independent_witness :
    (allocTwice scene0 (Sorbant.buildSorbant qlib)).2.1.owns 0 ∧
    (allocTwice scene0 (Sorbant.buildSorbant qlib)).2.2.owns sorSize ∧
    (setVisible (allocTwice scene0 (Sorbant.buildSorbant qlib)).1 0
        false).state sorSize =
      (allocTwice scene0 (Sorbant.buildSorbant qlib)).1.state sorSize := by
  have h1 : (allocTwice scene0 (Sorbant.buildSorbant qlib)).2.1.owns 0 := by
    decide
  have h2 : (allocTwice scene0 (Sorbant.buildSorbant qlib)).2.2.owns sorSize := by
    decide
  exact ⟨h1, h2,
    (builders_independent qlib scene0 Sorbant.buildSorbant (Or.inl rfl)
        0 sorSize false h1 h2).2.2.1⟩

/-- C2 counterexample: `selectModule ("constructor")` is not a no-op.
`"constructor"` is not a known module name, yet `modules["constructor"]`
is the inherited (truthy) `Object.prototype.constructor`, so the guard
does not return: the handler hides every module — the Peltier module's
visibility flips from `true` to `false` in the startup state — and then
throws at `modules[name].traverse`. -/
theorem selectModule_constructor_not_noop :
    "constructor" ∉ Main.knownNames ∧
    Main.switchModule "constructor" (Main.initState qlib) ≠
      .ok (Main.initState qlib) ∧
    (Main.runSwitch "constructor" (Main.initState qlib)).peltierVisible
      = false ∧
    (Main.initState qlib).peltierVisible = true := by
  have hL : Main.modulesLookup "constructor" = .inherited := by decide
  refine ⟨by decide, ?_, ?_, rfl⟩
  · intro h
    rw [Main.switchModule, hL] at h
    exact Except.noConfusion h
  · rw [Main.runSwitch, Main.switchModule, hL]
    rfl

/-- C2 (amended): `selectModule (name)` is a no-op — the complete state
snapshot is unchanged — exactly for names that are neither module names
nor inherited `Object.prototype` properties; for those absent names the
falsy-guard returns before any mutation. -/
theorem selectModule_absent_noop (name : String) (s : Main.State)
    (h1 : name ∉ Main.knownNames) (h2 : name ∉ Main.protoKeys) :
    Main.switchModule name s = .ok s := by
  rw [Main.switchModule, Main.modulesLookup, if_neg h1, if_neg h2]

/-- Witness for the amended C2: `"foo"` is absent, and the call returns
the startup state unchanged. -/
theorem selectModule_absent_noop_witness :
    Main.switchModule "foo" (Main.initState qlib) =
      .ok (Main.initState qlib) :=
  selectModule_absent_noop "foo" _ (by decide) (by decide)

/-- C9: for every known module name, `selectModule` installs the
module-specific preset camera pose — `(170, 105, 170)` targeting
`(0, 40, 0)` for the assembly, `(95, 55, 95)` targeting `(0, 7, 0)`
otherwise — independently of the camera pose before the call (the result
from any two starting states coincides). -/
theorem selectModule_camera_preset (name : String) (s t : Main.State)
    (h : name ∈ Main.knownNames) :
    (Main.runSwitch name s).camPos = Main.camPreset name ∧
    (Main.runSwitch name s).target = Main.targetPreset name ∧
    (Main.runSwitch name s).camPos = (Main.runSwitch name t).camPos ∧
    (Main.runSwitch name s).target = (Main.runSwitch name t).target := by
  have hL : Main.modulesLookup name = .own := by
    rw [Main.modulesLookup, if_pos h]
  have key : ∀ u : Main.State,
      (Main.runSwitch name u).camPos = Main.camPreset name ∧
      (Main.runSwitch name u).target = Main.targetPreset name := by
    intro u
    rw [Main.runSwitch, Main.switchModule, hL]
    exact ⟨rfl, rfl⟩
  obtain ⟨h1, h2⟩ := key s
  obtain ⟨h3, h4⟩ := key t
  exact ⟨h1, h2, h1.trans h3.symm, h2.trans h4.symm⟩

/-- Witness for C9: selecting `"peltier"` from the startup state and from
the reset-view state gives the same preset pose. -/
theorem selectModule_camera_preset_witness :
    (Main.runSwitch "peltier" (Main.initState qlib)).camPos =
      Main.camPreset "peltier" ∧
    (Main.runSwitch "peltier" (Main.initState qlib)).target =
      Main.targetPreset "peltier" ∧
    (Main.runSwitch "peltier" (Main.initState qlib)).camPos =
      (Main.runSwitch "peltier"
        (Main.resetView (Main.initState qlib))).camPos ∧
    (Main.runSwitch "peltier" (Main.initState qlib)).target =
      (Main.runSwitch "peltier"
        (Main.resetView (Main.initState qlib))).target :=
  selectModule_camera_preset "peltier" (Main.initState qlib)
    (Main.resetView (Main.initState qlib)) (by decide)

/-- Mapping a function that fixes every element of a list is the
identity. -/
theorem list_map_self {α : Type} (l : List α) (f : α → α)
    (h : ∀ x ∈ l, f x = x) : l.map f = l := by
  induction l with
  | nil => rfl
  | cons a t ih =>
      simp only [List.map_cons]
      rw [h a (by simp), ih (fun x hx => h x (by simp [hx]))]

mutual

/-- Every object extracted from a freshly built tree has the material
default `wireframe = false`. -/
theorem objsOfNode_wireframe (owner : String) :
    ∀ (t : Node), ∀ o ∈ Main.objsOfNode owner t, o.wireframe = false
  | .leaf d => by
      intro o ho
      simp only [Main.objsOfNode, List.mem_singleton] at ho
      subst ho
      rfl
  | .group n p cs => by
      intro o ho
      simp only [Main.objsOfNode, List.mem_cons] at ho
      rcases ho with rfl | ho
      · rfl
      · exact objsOfNodes_wireframe owner cs o ho

/-- The `objsOfNode_wireframe` over child lists. -/
theorem objsOfNodes_wireframe (owner : String) :
    ∀ (ts : List Node), ∀ o ∈ Main.objsOfNodes owner ts, o.wireframe = false
  | [] => by intro o ho; simp [Main.objsOfNodes] at ho
  | t :: ts => by
      intro o ho
      simp only [Main.objsOfNodes, List.mem_append] at ho
      rcases ho with ho | ho
      · exact objsOfNode_wireframe owner t o ho
      · exact objsOfNodes_wireframe owner ts o ho

end

/-- At startup every non-label mesh's wireframe flag agrees with the
controller's `wireOn` (both are false). -/
theorem initState_wireInv (lib : MathLib) : Main.WireInv (Main.initState lib) := by
  intro o ho _ _
  show o.wireframe = false
  have hm : o ∈ Main.initObjs lib := ho
  simp only [Main.initObjs, List.mem_append, List.mem_cons,
    List.mem_singleton, List.not_mem_nil, or_false, or_assoc] at hm
  rcases hm with rfl | rfl | h | h | h | h
  · rfl
  · rfl
  · exact objsOfNode_wireframe _ _ o h
  · exact objsOfNode_wireframe _ _ o h
  · exact objsOfNode_wireframe _ _ o h
  · exact objsOfNode_wireframe _ _ o h

/-- The `{o with wireframe := o.wireframe} = o`. -/
theorem SceneObj.set_wireframe_self (o : Main.SceneObj) (w : Bool)
    (h : o.wireframe = w) : ({ o with wireframe := w } : Main.SceneObj) = o := by
  cases o
  cases h
  rfl

/-- In every reachable controller state, every non-label mesh's wireframe
flag equals the controller's `wireOn`. -/
theorem reach_wireInv (lib : MathLib) (s : Main.State)
    (h : Main.Reach lib s) : Main.WireInv s := by
  induction h with
  | start => exact initState_wireInv lib
  | switchOk name hr heq ih =>
      rcases hcase : Main.modulesLookup name with _ | _ | _ <;>
        rw [Main.switchModule, hcase] at heq
      · -- own
        injection heq with heq
        subst heq
        intro o ho hm hl
        simp only [Main.applyWire, List.mem_map] at ho
        obtain ⟨a, ha, rfl⟩ := ho
        by_cases hc : a.owner = name ∧ a.isMesh ∧ ¬a.isLabel
        · rw [if_pos hc]
        · rw [if_neg hc] at hm hl ⊢
          exact ih a ha hm hl
      · -- inherited: contradiction
        exact Except.noConfusion heq
      · -- absent
        injection heq with heq
        subst heq
        exact ih
  | switchErr name hr heq ih =>
      rcases hcase : Main.modulesLookup name with _ | _ | _ <;>
        rw [Main.switchModule, hcase] at heq
      · exact Except.noConfusion heq
      · injection heq with heq
        subst heq
        intro o ho hm hl
        exact ih o ho hm hl
      · exact Except.noConfusion heq
  | wire hr ih =>
      intro o ho hm hl
      simp only [Main.toggleWire, List.mem_map] at ho
      obtain ⟨a, ha, rfl⟩ := ho
      by_cases hc : a.isMesh ∧ ¬a.isLabel
      · rw [if_pos hc]
        rfl
      · rw [if_neg hc] at hm hl ⊢
        exact absurd ⟨hm, by simp [hl]⟩ hc
  | rot hr ih => exact ih
  | reset hr ih => exact ih

/-- C1: for every module name in the known set and every state,
`selectModule` completes, exactly one of the four modules is visible
afterwards and it is the selected one; and in every reachable controller
state (including states a throwing call leaves behind) at most one module
is visible. -/
theorem selectModule_exactly_one_visible (lib : MathLib) :
    (∀ (s : Main.State) (name : String), name ∈ Main.knownNames →
      ∃ s', Main.switchModule name s = .ok s' ∧
        Main.visCount s' = 1 ∧
        ∀ k ∈ Main.knownNames, Main.moduleVisible s' k = (k == name)) ∧
    (∀ s : Main.State, Main.Reach lib s → Main.visCount s ≤ 1) := by
  constructor
  · intro s name hname
    simp only [Main.knownNames, List.mem_cons, List.mem_singleton,
      List.not_mem_nil, or_false] at hname
    rcases hname with rfl | rfl | rfl | rfl <;>
      exact ⟨_, rfl, rfl, by intro k hk; fin_cases hk <;> rfl⟩
  · intro s h
    induction h with
    | start => exact Nat.le_of_eq rfl
    | switchOk name hr heq ih =>
        rcases hcase : Main.modulesLookup name with _ | _ | _ <;>
          rw [Main.switchModule, hcase] at heq
        · have hname : name ∈ Main.knownNames := by
            by_contra hn
            rw [Main.modulesLookup, if_neg hn] at hcase
            split at hcase <;> exact Main.Lookup.noConfusion hcase
          injection heq with heq
          subst heq
          simp only [Main.knownNames, List.mem_cons, List.mem_singleton,
            List.not_mem_nil, or_false] at hname
          rcases hname with rfl | rfl | rfl | rfl <;> exact Nat.le_of_eq rfl
        · exact Except.noConfusion heq
        · injection heq with heq
          subst heq
          exact ih
    | switchErr name hr heq ih =>
        rcases hcase : Main.modulesLookup name with _ | _ | _ <;>
          rw [Main.switchModule, hcase] at heq
        · exact Except.noConfusion heq
        · injection heq with heq
          subst heq
          exact Nat.zero_le 1
        · exact Except.noConfusion heq
    | wire hr ih => exact ih
    | rot hr ih => exact ih
    | reset hr ih => exact ih

/-- Witness for C1: selecting `"sorbant"` from the startup state, and the
startup state itself is reachable with at most one visible module. -/
theorem selectModule_exactly_one_visible_witness :
    (∃ s', Main.switchModule "sorbant" (Main.initState qlib) = .ok s' ∧
      Main.visCount s' = 1 ∧
      ∀ k ∈ Main.knownNames, Main.moduleVisible s' k = (k == "sorbant")) ∧
    Main.visCount (Main.initState qlib) ≤ 1 :=
  ⟨(selectModule_exactly_one_visible qlib).1 (Main.initState qlib) "sorbant"
      (by decide),
   (selectModule_exactly_one_visible qlib).2 (Main.initState qlib)
      Main.Reach.start⟩

/-- C3: from every reachable controller state, pressing the wireframe
toggle twice restores the entire state — in particular every non-label
drawable mesh's wireframe flag and the controller's `wireOn`. -/
theorem toggleWire_involution (lib : MathLib) (s : Main.State)
    (h : Main.Reach lib s) :
    Main.toggleWire (Main.toggleWire s) = s := by
  have inv := reach_wireInv lib s h
  obtain ⟨pv, sv, fv, av, am, w, ar, rs, cp, tg, objs⟩ := s
  have hobjs :
      ((objs.map (fun o =>
          if o.isMesh ∧ ¬o.isLabel then { o with wireframe := !w } else o)).map
        (fun o =>
          if o.isMesh ∧ ¬o.isLabel then { o with wireframe := !!w } else o))
      = objs := by
    rw [List.map_map]
    refine list_map_self _ _ (fun o ho => ?_)
    by_cases hc : o.isMesh ∧ ¬o.isLabel
    · simp only [Function.comp_apply, if_pos hc]
      rw [Bool.not_not]
      exact SceneObj.set_wireframe_self o w
        (inv o ho hc.1 (by simpa using hc.2))
    · simp only [Function.comp_apply, if_neg hc]
  simp only [Main.toggleWire]
  rw [hobjs, Bool.not_not]

/-- Witness for C3: a double toggle from the reachable startup state. -/
theorem toggleWire_involution_witness :
    Main.toggleWire (Main.toggleWire (Main.initState qlib)) =
      Main.initState qlib :=
  toggleWire_involution qlib (Main.initState qlib) Main.Reach.start

/-- One more toggle flips the resulting wireframe value. -/
theorem wireAfter_succ (w : Bool) (m : ℕ) :
    Main.wireAfter w (m + 1) = !(Main.wireAfter w m) := by
  unfold Main.wireAfter
  rcases Nat.mod_two_eq_zero_or_one m with hp | hp
  · rw [if_pos (by omega), if_neg (by omega)]
  · rw [if_neg (by omega), if_pos hp, Bool.not_not]

/-- C4: after any positive number of `toggleWireframe` presses, the scene
object list is the original one with only the non-label meshes' wireframe
flags rewritten to the current toggle value — every label primitive (and
every non-mesh object) is bit-for-bit unchanged, while every non-label
mesh in the whole scene (all modules, not only the active one) carries the
new value. -/
theorem toggleWire_labels_exempt (s : Main.State) (n : ℕ) (hn : 0 < n) :
    (Main.toggleWire^[n] s).wireOn = Main.wireAfter s.wireOn n ∧
    (Main.toggleWire^[n] s).objs = s.objs.map (fun o =>
      if o.isMesh ∧ ¬o.isLabel
      then { o with wireframe := Main.wireAfter s.wireOn n } else o) := by
  induction n with
  | zero => exact absurd hn (lt_irrefl 0)
  | succ m ih =>
    rcases Nat.eq_zero_or_pos m with rfl | hm
    · constructor
      · show (Main.toggleWire s).wireOn = _
        rfl
      · show (Main.toggleWire s).objs = _
        rfl
    · obtain ⟨ihw, iho⟩ := ih hm
      rw [Function.iterate_succ_apply']
      constructor
      · show (!(Main.toggleWire^[m] s).wireOn) = _
        rw [ihw, wireAfter_succ]
      · show ((Main.toggleWire^[m] s).objs.map (fun o =>
            if o.isMesh ∧ ¬o.isLabel
            then { o with wireframe := !(Main.toggleWire^[m] s).wireOn }
            else o)) = _
        rw [ihw, iho, List.map_map]
        refine List.map_congr_left (fun o ho => ?_)
        by_cases hc : o.isMesh ∧ ¬o.isLabel
        · simp only [Function.comp_apply, if_pos hc, wireAfter_succ]
        · simp only [Function.comp_apply, if_neg hc]

/-- Witness for C4: one toggle on a scene holding one label sprite and one
solid mesh. -/
theorem toggleWire_labels_exempt_witness :
    (Main.toggleWire^[1] Main.demoState).wireOn =
      Main.wireAfter Main.demoState.wireOn 1 ∧
    (Main.toggleWire^[1] Main.demoState).objs =
      Main.demoState.objs.map (fun o =>
        if o.isMesh ∧ ¬o.isLabel
        then { o with wireframe := Main.wireAfter Main.demoState.wireOn 1 }
        else o) :=
  toggleWire_labels_exempt Main.demoState 1 (by decide)

/-- C5: in the composite module built by `buildAssemblage`, the named
vertical offsets are `electronics = 0`, `filtration = 11`, `Peltier = 33`,
`sorbant = 50` (1 unit = 1 cm): the three sub-module groups are the only
group children and sit at exactly those heights, while the electronics
parts are leaves placed directly in the root group (whose own position is
the origin), i.e. at offset 0. -/
theorem assemblage_offsets (lib : MathLib) :
    Assemblage.Y_ELEC = 0 ∧ Assemblage.Y_FILTR = 11 ∧
    Assemblage.Y_PELTIER = 33 ∧ Assemblage.Y_SORBANT = 50 ∧
    Assemblage.buildAssemblage lib =
      .group "assemblage" ⟨0, 0, 0⟩ (Assemblage.assemblageChildren lib) ∧
    (∃ rest, Assemblage.assemblageChildren lib =
      Assemblage.buildElec lib ++ rest) ∧
    (Assemblage.buildElec lib).all Node.isLeaf = true ∧
    groupChildren (Assemblage.buildAssemblage lib) =
      [("filtration", ⟨0, 11, 0⟩), ("peltier", ⟨0, 33, 0⟩),
       ("sorbant", ⟨0, 50, 0⟩)] := by
  refine ⟨rfl, rfl, rfl, rfl, rfl, ?_, ?_, ?_⟩
  · refine ⟨[(Filtration.buildFiltration lib).setPos ⟨0, Assemblage.Y_FILTR, 0⟩,
        (Peltier.buildPeltier lib).setPos ⟨0, Assemblage.Y_PELTIER, 0⟩,
        (Sorbant.buildSorbant lib).setPos ⟨0, Assemblage.Y_SORBANT, 0⟩]
      ++ Assemblage.buildPanneau ++ Assemblage.buildFluxEau lib
      ++ [Assemblage.labelSprite "SORBANT" 0 (Assemblage.Y_SORBANT + 30) 32 32,
          Assemblage.labelSprite "PELTIER TEC" 0 (Assemblage.Y_PELTIER + 22)
            32 32,
          Assemblage.labelSprite "FILTRATION + RÉSERVOIR" 0
            (Assemblage.Y_FILTR + 22) 28 50,
          Assemblage.labelSprite "ÉLECTRONIQUE" 0 (Assemblage.Y_ELEC + 8)
            28 32], ?_⟩
    simp [Assemblage.assemblageChildren, List.append_assoc]
  · rfl
  · rfl

/-- C7: the pipe builder given waypoints and a radius `r` constructs a
`TubeGeometry` over the Catmull-Rom spline through the waypoints with the
configured resolutions (14 path segments, 10 cross-section segments), a
constant cross-section radius `r`, and `closed = false` (open tube); and
for the two-point input `[(0,0,0), (0,10,0)]` the sampled centerline
passes exactly through both endpoints, for every interpretation `pq` of
the centripetal weight function `Math.pow (·, 0.25)`. -/
theorem pipe_endpoints (pq : ℚ → ℚ) (r : ℚ) :
    (Assemblage.pipe pipePts r).geom? = some (.tube pipePts 14 r 10 false) ∧
    catmullRomPoint pq pipePts 0 = ⟨0, 0, 0⟩ ∧
    catmullRomPoint pq pipePts 1 = ⟨0, 10, 0⟩ ∧
    (tubeCenterline pq pipePts 14).head? = some ⟨0, 0, 0⟩ ∧
    (tubeCenterline pq pipePts 14).getLast? = some ⟨0, 10, 0⟩ := by
  have h0 : catmullRomPoint pq pipePts 0 = ⟨0, 0, 0⟩ := by
    simp only [catmullRomPoint, pipePts, calcCubic, nonuniformCatmullRom,
      distSq, ghostPoint, List.length_cons, List.length_nil, List.getD,
      List.getElem?_cons_zero, List.getElem?_cons_succ]
    norm_num
  have h1 : catmullRomPoint pq pipePts 1 = ⟨0, 10, 0⟩ := by
    simp only [catmullRomPoint, pipePts, calcCubic, nonuniformCatmullRom,
      distSq, ghostPoint, List.length_cons, List.length_nil, List.getD,
      List.getElem?_cons_zero, List.getElem?_cons_succ]
    norm_num
    split_ifs with hq
    · norm_num
    · have hd : pq 100 ≠ 0 := by
        intro h
        rw [h] at hq
        exact hq (by norm_num)
      field_simp
      ring
  have hhead : (tubeCenterline pq pipePts 14).head? =
      some (catmullRomPoint pq pipePts (((0 : ℕ) : ℚ) / ((14 : ℕ) : ℚ))) :=
    rfl
  have hlast : (tubeCenterline pq pipePts 14).getLast? =
      some (catmullRomPoint pq pipePts (((14 : ℕ) : ℚ) / ((14 : ℕ) : ℚ))) :=
    rfl
  refine ⟨rfl, h0, h1, ?_, ?_⟩
  · rw [hhead]
    norm_num [h0]
  · rw [hlast]
    norm_num [h1]

/-- C8 counterexample: the claim's "consistent outward winding" fails on
the right trapezoidal wall.  `makeTrapWall` is called with `xPos = +HW`
for the right wall; its vertex list is the left wall's mirrored in `x`
with the same index list, which reverses orientation: already the first
triangle's winding normal points against the face's outward direction
(negative dot product), under the concrete interpretation `qlib`
(`tan 12° > 0`). -/
theorem trapWall_winding_counterexample :
    (Sorbant.windingDots qlib Sorbant.HW).length = 12 ∧
    (Sorbant.windingDots qlib Sorbant.HW).getD 0 0 < 0 := by
  constructor
  · rfl
  · norm_num [Sorbant.windingDots, Sorbant.outwardDirs, Sorbant.trapVerts,
      Sorbant.trapIdx, triTriples, triNormal, Vec3.dot, Vec3.cross,
      Vec3.sub, Sorbant.trapX1, Sorbant.HW, Sorbant.HD, Sorbant.H_AV,
      Sorbant.H_AR, Sorbant.D, Sorbant.T, Sorbant.ANGLE, Sorbant.W, qlib]

/-- C8 (amended): each trapezoidal side wall of the sorbant module is an
explicit indexed `BufferGeometry` mesh — not a box primitive — with
exactly 8 vertices (front edge at height `H_AV`, rear edge at the taller
`H_AR`) and 12 triangles (36 indices) covering all six faces; the winding
is consistent within each wall, but outward only for the left wall
(`xPos = -HW`): the mirrored right wall (`xPos = +HW`) is consistently
wound inward. -/
theorem trapWall_structure (lib : MathLib)
    (ht : 0 < lib.tan (Sorbant.ANGLE lib)) :
    (∀ xPos mt, (Sorbant.makeTrapWall lib xPos mt).geom? =
       some (.bufferIndexed (Sorbant.trapVerts lib xPos) Sorbant.trapIdx)) ∧
    (∀ xPos, (Sorbant.trapVerts lib xPos).length = 8) ∧
    Sorbant.trapIdx.length = 36 ∧
    (triTriples Sorbant.trapIdx).length = 12 ∧
    Sorbant.H_AV < Sorbant.H_AR lib ∧
    (∀ xPos, ∀ q ∈ Sorbant.faceResiduals lib xPos, q = 0) ∧
    (∀ q ∈ Sorbant.windingDots lib (-Sorbant.HW), 0 < q) ∧
    (∀ q ∈ Sorbant.windingDots lib Sorbant.HW, q < 0) := by
  have ht' : (0 : ℚ) < lib.tan (12 * lib.pi / 180) := ht
  have ha : (0 : ℚ) < Sorbant.H_AR lib := by
    unfold Sorbant.H_AR Sorbant.H_AV Sorbant.D Sorbant.ANGLE
    nlinarith
  refine ⟨fun xPos mt => rfl, fun xPos => rfl, rfl, rfl, ?_, ?_, ?_, ?_⟩
  · unfold Sorbant.H_AR Sorbant.H_AV Sorbant.D Sorbant.ANGLE
    nlinarith
  · intro xPos q hq
    fin_cases hq <;>
      simp [Sorbant.trapVerts, Sorbant.trapX1, Sorbant.T, Sorbant.HD,
        Sorbant.HW, Sorbant.H_AV, Sorbant.D, Sorbant.W]
    all_goals ring_nf
  · intro q hq
    fin_cases hq <;>
      · simp [triNormal, Vec3.dot, Vec3.cross, Vec3.sub, Sorbant.trapVerts,
          Sorbant.trapX1, Sorbant.HW, Sorbant.HD, Sorbant.H_AV, Sorbant.D,
          Sorbant.T, Sorbant.W]
        try norm_num
        try nlinarith [ha, ht', sq_nonneg (Sorbant.H_AR lib - 18)]
  · intro q hq
    fin_cases hq <;>
      · simp [triNormal, Vec3.dot, Vec3.cross, Vec3.sub, Sorbant.trapVerts,
          Sorbant.trapX1, Sorbant.HW, Sorbant.HD, Sorbant.H_AV, Sorbant.D,
          Sorbant.T, Sorbant.W]
        try norm_num
        try nlinarith [ha, ht', sq_nonneg (Sorbant.H_AR lib - 18)]

/-- Witness for the amended C8: under the concrete interpretation the
hypothesis `0 < tan 12°` holds and the rear edge is taller than the front
edge. -/
theorem trapWall_structure_witness :
    0 < qlib.tan (Sorbant.ANGLE qlib) ∧
    Sorbant.H_AV < Sorbant.H_AR qlib := by
  have ht : (0 : ℚ) < qlib.tan (Sorbant.ANGLE qlib) := by norm_num [qlib]
  exact ⟨ht, (trapWall_structure qlib ht).2.2.2.2.1⟩

/-- C10 counterexample: not every builder-created material is double-sided
exactly when its opacity is below 0.99.  The 71st material of the Peltier
build (the flow-arrow material, constructed inline with
`transparent: true` and no `side`) has opacity 0.60 < 0.99, is marked
transparent, yet is front-side-only. -/
theorem material_transparency_counterexample :
    (materialsOf (Peltier.buildPeltier qlib)).getD 70 (.basic 0 false false true)
      = Peltier.arrowMat ∧
    Peltier.arrowMat.transparentB = true ∧
    Peltier.arrowMat.opacityOf < 0.99 ∧
    Peltier.arrowMat.sideOf = .front := by
  refine ⟨rfl, rfl, ?_, rfl⟩
  norm_num [Peltier.arrowMat, Material.opacityOf]

/-- C10 (amended): materials created through the four module files' shared
`mat` helper and through `helpers.js`'s `box` are marked transparent
exactly when the caller-supplied opacity is strictly below 0.99, and
double-sided exactly then (`box` falling back to the caller-supplied side,
front by default, when opaque); the `cyl` helper sets `transparent` the
same way but never sets `side`, staying front-side-only; and for every
opacity in `[0.99, 1)` these helpers produce a fully opaque,
front-side-only material despite the opacity being below 1.  (Materials
the builders construct inline — edge lines, sprites, flow arrows — set
`transparent` unconditionally and are exempt, per the counterexample.) -/
theorem material_transparency (color : ℕ) (roughness metalness opacity : ℚ)
    (sd : Side) :
    ((stdMat color roughness metalness opacity).transparentB = true ↔
      opacity < 0.99) ∧
    ((stdMat color roughness metalness opacity).sideOf = .double ↔
      opacity < 0.99) ∧
    ((Helpers.boxMaterial color opacity roughness metalness sd).transparentB
        = true ↔ opacity < 0.99) ∧
    (opacity < 0.99 →
      (Helpers.boxMaterial color opacity roughness metalness sd).sideOf
        = .double) ∧
    (¬ opacity < 0.99 →
      (Helpers.boxMaterial color opacity roughness metalness sd).sideOf = sd) ∧
    ((Helpers.cylMaterial color opacity roughness metalness).transparentB
        = true ↔ opacity < 0.99) ∧
    (Helpers.cylMaterial color opacity roughness metalness).sideOf = .front ∧
    (0.99 ≤ opacity →
      (stdMat color roughness metalness opacity).transparentB = false ∧
      (stdMat color roughness metalness opacity).sideOf = .front ∧
      (Helpers.boxMaterial color opacity roughness metalness .front).sideOf
        = .front) := by
  by_cases h : opacity < (0.99 : ℚ) <;>
    simp [stdMat, Helpers.boxMaterial, Helpers.cylMaterial,
      Material.transparentB, Material.sideOf, h, not_lt.mp, le_of_not_lt]

/-- Witness for the amended C10 at opacity 0.995 ∈ [0.99, 1): opaque and
front-side-only despite opacity < 1. -/
theorem material_transparency_witness :
    ((0.995 : ℚ) < 0.99 → False) ∧ (0.99 : ℚ) ≤ 0.995 ∧ (0.995 : ℚ) < 1 ∧
    (stdMat 0xffffff 0.7 0.1 0.995).transparentB = false ∧
    (stdMat 0xffffff 0.7 0.1 0.995).sideOf = .front ∧
    (Helpers.boxMaterial 0xffffff 0.995 0.7 0.1 .front).sideOf = .front := by
  have h1 : ¬ (0.995 : ℚ) < 0.99 := by norm_num
  have h2 : (0.99 : ℚ) ≤ 0.995 := by norm_num
  obtain ⟨-, -, -, -, hside, -, -, hlast⟩ :=
    material_transparency 0xffffff 0.7 0.1 0.995 .front
  obtain ⟨ha, hb, hc⟩ := hlast h2
  exact ⟨h1, h2, by norm_num, ha, hb, hc⟩
